import Mathlib

/-!
Shallow embedding of the MyPersona discourse-delta detection core
(`src/models/*.py`, `src/detection/*.py`, `src/expectation/*.py`).

Modelling conventions:
* Python floats are modelled as exact rationals (`ℚ`); the only irrational
  operation in the modelled code is `statistics.stdev`'s square root, which is
  kept as an explicit function parameter `sqrtFn` of the `BaselineBuilder`
  (every claim settled here is independent of its value).
* `datetime` values are modelled as rational seconds since the epoch
  (`DateTime := ℚ`); `hour`/`weekday` are derived with floor arithmetic.
* Python dicts are insertion-ordered association lists; `dict.get` is
  `lookupOpt`/`lookupD`, assignment is `dictSet` (update in place, append new).
* `uuid.uuid4()` (used by `Delta.generate_id`, `DeltaCluster.generate_id`,
  `DetectedEvent.generate_id`) is modelled as an ambient stream
  `u : ℕ → String` together with a position counter threaded through each
  call in allocation order; `datetime.utcnow()` is an explicit `tnow`
  parameter.
* Purely presentational string fields generated by `__post_init__`
  (`description`, `reasoning`, `title`, `summary`, `expected_value`,
  `observed_value`, `evidence`) are not modelled; no claim depends on them.
* Fallible constructions (a Python `TypeError`) are modelled with `Except`.
-/

/-- Seconds since the epoch, the model of `datetime`. -/
abbrev DateTime := ℚ

namespace DateTime

/-- Hour-of-day of a timestamp, the model of `datetime.hour`. -/
def hour (t : DateTime) : ℕ := (((Int.floor t).fdiv 3600).emod 24).toNat

/-- Day-of-week (Monday = 0) of a timestamp, the model of `datetime.weekday()`.
The epoch (1970-01-01) was a Thursday, hence the offset 3. -/
def weekday (t : DateTime) : ℕ := (((Int.floor t).fdiv 86400 + 3).emod 7).toNat

end DateTime

/-- Model of Python `dict.get(key)` on an insertion-ordered assoc list. -/
def lookupOpt {α : Type} (m : List (String × α)) (key : String) : Option α :=
  (m.find? (fun p => p.1 == key)).map (fun p => p.2)

/-- Model of Python `dict.get(key, dflt)`. -/
def lookupD {α : Type} (m : List (String × α)) (key : String) (dflt : α) : α :=
  (lookupOpt m key).getD dflt

/-- Model of Python `dict[key] = v`: update in place, append when new. -/
def dictSet {α : Type} (m : List (String × α)) (key : String) (v : α) :
    List (String × α) :=
  if m.any (fun p => p.1 == key) then
    m.map (fun p => if p.1 == key then (p.1, v) else p)
  else m ++ [(key, v)]

/-- Auxiliary for `firstDedup`: drop elements already in `seen`. -/
def firstDedupAux (seen : List String) : List String → List String
  | [] => []
  | x :: xs =>
      if x ∈ seen then firstDedupAux seen xs
      else x :: firstDedupAux (x :: seen) xs

/-- Deduplicate keeping the first occurrence, the iteration order of keys of a
Python dict built by repeated insertion. -/
def firstDedup (l : List String) : List String := firstDedupAux [] l

/-- Model of Python `statistics.mean` over rationals (callers guard against
the empty list, where Python raises; Lean's `x / 0 = 0` is unreachable
on modelled paths). -/
def pyMean (xs : List ℚ) : ℚ := xs.sum / xs.length

/-- Sample variance with Bessel correction, the radicand of
`statistics.stdev`. -/
def sampleVariance (xs : List ℚ) : ℚ :=
  ((xs.map (fun x => (x - pyMean xs) ^ 2)).sum) / ((xs.length : ℚ) - 1)

/-- Model of Python `max(l)` for a possibly-empty list with Python default 1
(matching `max(hourly_avgs) if hourly_avgs else 1`). -/
def pyMaxD1 : List ℚ → ℚ
  | [] => 1
  | x :: xs => xs.foldl max x

/-! ## Discourse models (`src/models/discourse.py`) -/

/-- Classification of account type (`AccountType`). -/
inductive AccountType where
  | individual | companyOfficial | executive | media | analyst
  | influencer | botSuspected | unknown
deriving DecidableEq

/-- A social media account (`Account`); only the fields the modelled core
reads are kept. -/
structure Account where
  platform_id : String
  username : String
  display_name : String
  account_type : AccountType := .unknown
  verified : Bool := false
  follower_count : ℕ := 0
  influence_score : ℚ := 0
deriving DecidableEq

namespace Account

/-- Unique identifier combining platform and ID (`Account.account_id`). -/
def account_id (a : Account) : String := "x:" ++ a.platform_id

/-- Whether this account's silence would be significant
(`Account.is_high_value`). -/
def is_high_value (a : Account) : Bool :=
  (a.account_type == .executive || a.account_type == .companyOfficial
    || a.account_type == .analyst)
  || decide (a.influence_score > 7/10) || a.verified

end Account

/-- A post; only the author is read by the modelled core (`Post`). -/
structure Post where
  author : Account
deriving DecidableEq

/-- A conversation thread (`ConversationThread`); the response-pattern
computation reads the root post and the replies. -/
structure ConversationThread where
  root_post : Option Post := none
  replies : List Post := []
deriving DecidableEq

/-- Observed discourse for one entity and window (`DiscourseSnapshot`). -/
structure DiscourseSnapshot where
  entity : String
  window_start : DateTime
  window_end : DateTime
  total_posts : ℕ := 0
  unique_authors : ℕ := 0
  topic_counts : List (String × ℕ) := []
  topic_sentiments : List (String × ℚ) := []
  active_accounts : List Account := []
  avg_sentiment : ℚ := 0
  dominant_tones : List String := []
  posts : List Post := []
  threads : List ConversationThread := []
deriving DecidableEq

/-! ## Expectation models (`src/models/expectation.py`) -/

/-- Types of events that modify discourse expectations (`TriggerType`). -/
inductive TriggerType where
  | earningsRelease | productLaunch | executiveChange | regulatoryFiling
  | newsBreaking | marketOpen | marketClose | competitorEvent | seasonal
  | custom
deriving DecidableEq

/-- Standard time windows for expectation analysis (`TimeWindow`). -/
inductive TimeWindow where
  | hour | marketSession | tradingDay | week | earningsWindow | custom
deriving DecidableEq

/-- A topic expected to be discussed for an entity (`ExpectedTopic`). -/
structure ExpectedTopic where
  topic_id : String
  topic_name : String
  expected_mention_count : ℚ
  mention_stddev : ℚ
  expected_sentiment : ℚ
  sentiment_stddev : ℚ
  confidence : ℚ := 4/5
  sample_size : ℕ := 0
  usually_discussed_with : List String := []
  absence_severity : ℚ := 1/2
deriving DecidableEq

/-- An account expected to participate in discourse (`ExpectedVoice`). -/
structure ExpectedVoice where
  account_id : String
  username : String
  expected_posts_per_day : ℚ
  post_stddev : ℚ
  typical_topics : List String := []
  typical_sentiment : ℚ := 0
  typical_response_time_minutes : ℚ := 60
  active_hours_utc : List ℕ := []
  active_days : List ℕ := []
  silence_severity : ℚ := 1/2
  is_key_voice : Bool := false
  usually_responds_to : List String := []
  usually_responds_about : List String := []
deriving DecidableEq

/-- Whether this voice is expected to be active at the given time
(`ExpectedVoice.expected_to_be_active`). -/
def ExpectedVoice.expected_to_be_active (v : ExpectedVoice)
    (check_time : DateTime) : Bool :=
  let hour_ok := v.active_hours_utc.isEmpty || v.active_hours_utc.contains check_time.hour
  let day_ok := v.active_days.isEmpty || v.active_days.contains check_time.weekday
  hour_ok && day_ok

/-- An event that modifies discourse expectations (`ContextTrigger`). -/
structure ContextTrigger where
  trigger_id : String
  trigger_type : TriggerType
  entity : String
  name : String
  start_time : Option DateTime := none
  end_time : Option DateTime := none
  is_recurring : Bool := false
  volume_multiplier : ℚ := 1
  sentiment_shift : ℚ := 0
  expected_new_topics : List String := []
  expected_new_voices : List String := []
  required_voices : List String := []
  confidence : ℚ := 4/5
deriving DecidableEq

/-- Whether this trigger is currently active (`ContextTrigger.is_active`):
inactive strictly before `start_time` and strictly after `end_time`. -/
def ContextTrigger.is_active (t : ContextTrigger) (check_time : DateTime) : Bool :=
  let before_start := match t.start_time with
    | some s => decide (check_time < s)
    | none => false
  let after_end := match t.end_time with
    | some e => decide (check_time > e)
    | none => false
  !before_start && !after_end

/-- Historical pattern for an entity's discourse (`BaselinePattern`). -/
structure BaselinePattern where
  entity : String
  time_window : TimeWindow
  avg_posts_per_window : ℚ := 0
  post_stddev : ℚ := 0
  hourly_volume_pattern : List ℚ := List.replicate 24 0
  daily_volume_pattern : List ℚ := List.replicate 7 0
  avg_sentiment : ℚ := 0
  sentiment_stddev : ℚ := 0
  typical_topics : List ExpectedTopic := []
  topic_co_occurrence : List (String × List String) := []
  typical_voices : List ExpectedVoice := []
  voice_response_patterns : List (String × List String) := []
  sample_start : Option DateTime := none
  sample_end : Option DateTime := none
  sample_size : ℕ := 0
  last_updated : Option DateTime := none
deriving DecidableEq

/-- Expected volume for a specific time (`BaselinePattern.expected_volume_at`). -/
def BaselinePattern.expected_volume_at (b : BaselinePattern)
    (check_time : DateTime) : ℚ :=
  let hour_factor := b.hourly_volume_pattern.getD check_time.hour 0
  let day_factor := b.daily_volume_pattern.getD check_time.weekday 0
  let avg_factor :=
    if hour_factor > 0 ∧ day_factor > 0 then (hour_factor + day_factor) / 2
    else max hour_factor day_factor
  b.avg_posts_per_window * avg_factor

/-- Complete expectation model for an entity (`DiscourseExpectation`); the
upper end of `post_count_range` is `WithTop ℚ` because the missing-baseline
path stores `float('inf')`. -/
structure DiscourseExpectation where
  expectation_id : String
  entity : String
  window_start : DateTime
  window_end : DateTime
  baseline : BaselinePattern
  active_triggers : List ContextTrigger := []
  expected_post_count : ℚ := 0
  post_count_range : ℚ × WithTop ℚ := (0, (0 : ℚ))
  expected_topics : List ExpectedTopic := []
  required_topics : List String := []
  expected_voices : List ExpectedVoice := []
  required_voices : List String := []
  expected_sentiment : ℚ := 0
  sentiment_range : ℚ × ℚ := (-1, 1)
  confidence : ℚ := 4/5
deriving DecidableEq

namespace DiscourseExpectation

/-- Expectation for a specific topic (`get_expected_topic`). -/
def get_expected_topic (e : DiscourseExpectation) (topic_id : String) :
    Option ExpectedTopic :=
  e.expected_topics.find? (fun t => t.topic_id == topic_id)

/-- Whether a topic is required to be discussed (`is_topic_required`). -/
def is_topic_required (e : DiscourseExpectation) (topic_id : String) : Bool :=
  e.required_topics.contains topic_id

/-- Auxiliary for `apply_trigger`: add the trigger's new expected topics that
are not already present, in order. -/
def addNewTopics (e : DiscourseExpectation) : List String → DiscourseExpectation
  | [] => e
  | topic_id :: rest =>
      let e' :=
        if (e.get_expected_topic topic_id).isSome then e
        else
          { e with expected_topics := e.expected_topics ++
              [{ topic_id := topic_id
                 topic_name := topic_id
                 expected_mention_count := 10
                 mention_stddev := 5
                 expected_sentiment := 0
                 sentiment_stddev := 3/10
                 absence_severity := 7/10 }] }
      addNewTopics e' rest

/-- Apply a context trigger to modify expectations (`apply_trigger`). -/
def apply_trigger (e : DiscourseExpectation) (trigger : ContextTrigger) :
    DiscourseExpectation :=
  let e1 : DiscourseExpectation :=
    { e with
      active_triggers := e.active_triggers ++ [trigger]
      expected_post_count := e.expected_post_count * trigger.volume_multiplier
      post_count_range :=
        (e.post_count_range.1 * trigger.volume_multiplier,
         e.post_count_range.2.map (fun x => x * trigger.volume_multiplier))
      expected_sentiment := e.expected_sentiment + trigger.sentiment_shift
      required_voices := e.required_voices ++ trigger.required_voices }
  addNewTopics e1 trigger.expected_new_topics

end DiscourseExpectation

/-! ## Delta models (`src/models/delta.py`) -/

/-- Types of discourse deltas (`DeltaType`). -/
inductive DeltaType where
  | topicAbsence | topicSubstitution | voiceSilence | unexpectedVoice
  | sentimentDecoupling | toneShift | networkBreak | responseDelay
  | volumeCollapse | volumeSpike | temporalShift | coordinatedSilence
deriving DecidableEq

/-- String value of a delta type (`DeltaType.value`), used as the sort key in
`EventClassifier.classify_cluster`. -/
def DeltaType.value : DeltaType → String
  | .topicAbsence => "topic_absence"
  | .topicSubstitution => "topic_substitution"
  | .voiceSilence => "voice_silence"
  | .unexpectedVoice => "unexpected_voice"
  | .sentimentDecoupling => "sentiment_decoupling"
  | .toneShift => "tone_shift"
  | .networkBreak => "network_break"
  | .responseDelay => "response_delay"
  | .volumeCollapse => "volume_collapse"
  | .volumeSpike => "volume_spike"
  | .temporalShift => "temporal_shift"
  | .coordinatedSilence => "coordinated_silence"

/-- Severity of a detected delta (`DeltaSeverity`). -/
inductive DeltaSeverity where
  | low | medium | high | critical
deriving DecidableEq

namespace DeltaSeverity

/-- Position in `list(DeltaSeverity)` (declaration order LOW..CRITICAL). -/
def idx : DeltaSeverity → ℕ
  | .low => 0
  | .medium => 1
  | .high => 2
  | .critical => 3

/-- Inverse of `idx`, the model of `list(DeltaSeverity)[i]`. -/
def ofIdx : ℕ → DeltaSeverity
  | 0 => .low
  | 1 => .medium
  | 2 => .high
  | _ => .critical

/-- Weight table `severity_weights` used by
`DeltaCluster._recalculate_significance`. -/
def weight : DeltaSeverity → ℕ
  | .low => 1
  | .medium => 2
  | .high => 3
  | .critical => 4

end DeltaSeverity

/-- Variant-specific payload of a delta: the extra fields each `Delta`
dataclass subclass declares (presentational string fields omitted). -/
inductive DeltaPayload where
  | topicAbsencePayload
      (missing_topic_id missing_topic_name : String)
      (expected_mentions : ℚ) (observed_mentions : ℕ)
      (baseline_mentions : ℚ) (topic_importance : ℚ)
      (is_required_topic : Bool)
  | voiceSilencePayload
      (silent_account_id silent_username account_type : String)
      (silence_hours expected_posts : ℚ) (observed_posts : ℕ)
      (last_post_time : Option DateTime) (typical_post_frequency : ℚ)
      (is_key_voice : Bool) (influence_score : ℚ)
  | sentimentDecouplingPayload
      (expected_sentiment observed_sentiment sentiment_gap : ℚ)
      (context_trigger : String) (z_score : ℚ)
      (is_statistically_significant : Bool)
      (observed_tones expected_tones : List String)
  | volumeAnomalyPayload
      (expected_volume : ℚ) (observed_volume : ℕ)
      (volume_ratio baseline_volume volume_stddev z_score : ℚ)
      (is_collapse : Bool) (unique_authors : ℕ) (expected_authors : ℚ)
  | coordinatedSilencePayload
      (silent_accounts silent_usernames : List String)
      (silence_start_times : List DateTime)
      (time_spread_hours : ℚ) (coordination_score : ℚ)
deriving DecidableEq

/-- A detected discourse delta (`Delta` base dataclass plus the subclass
payload; `expected_value`/`observed_value`/`description`/`evidence` are
presentational and not modelled). -/
structure Delta where
  delta_id : String
  delta_type : DeltaType
  entity : String
  detected_at : DateTime
  window_start : DateTime
  window_end : DateTime
  severity : DeltaSeverity := .medium
  confidence : ℚ := 1/2
  deviation_score : ℚ := 0
  payload : DeltaPayload
deriving DecidableEq

/-- Constructor + `__post_init__` of `TopicAbsenceDelta`: sets
`deviation_score = 1 - observed/expected` when `expected_mentions > 0`. -/
def mkTopicAbsenceDelta (delta_id entity : String)
    (detected_at window_start window_end : DateTime)
    (missing_topic_id missing_topic_name : String)
    (expected_mentions : ℚ) (observed_mentions : ℕ)
    (baseline_mentions topic_importance : ℚ) (is_required_topic : Bool)
    (confidence : ℚ) : Delta :=
  { delta_id := delta_id
    delta_type := .topicAbsence
    entity := entity
    detected_at := detected_at
    window_start := window_start
    window_end := window_end
    confidence := confidence
    deviation_score :=
      if expected_mentions > 0 then 1 - observed_mentions / expected_mentions
      else 0
    payload := .topicAbsencePayload missing_topic_id missing_topic_name
      expected_mentions observed_mentions baseline_mentions topic_importance
      is_required_topic }

/-- Constructor + `__post_init__` of `VoiceSilenceDelta`: sets
`deviation_score = 1 - observed/expected` when `expected_posts > 0`. -/
def mkVoiceSilenceDelta (delta_id entity : String)
    (detected_at window_start window_end : DateTime)
    (silent_account_id silent_username account_type : String)
    (silence_hours expected_posts : ℚ) (observed_posts : ℕ)
    (last_post_time : Option DateTime) (typical_post_frequency : ℚ)
    (is_key_voice : Bool) (influence_score confidence : ℚ) : Delta :=
  { delta_id := delta_id
    delta_type := .voiceSilence
    entity := entity
    detected_at := detected_at
    window_start := window_start
    window_end := window_end
    confidence := confidence
    deviation_score :=
      if expected_posts > 0 then 1 - observed_posts / expected_posts else 0
    payload := .voiceSilencePayload silent_account_id silent_username
      account_type silence_hours expected_posts observed_posts last_post_time
      typical_post_frequency is_key_voice influence_score }

/-- Constructor + `__post_init__` of `SentimentDecouplingDelta`: computes
`sentiment_gap` and `deviation_score = |gap| / 2`. -/
def mkSentimentDecouplingDelta (delta_id entity : String)
    (detected_at window_start window_end : DateTime)
    (expected_sentiment observed_sentiment : ℚ) (context_trigger : String)
    (z_score : ℚ) (is_statistically_significant : Bool)
    (observed_tones expected_tones : List String)
    (confidence : ℚ) : Delta :=
  let gap := observed_sentiment - expected_sentiment
  { delta_id := delta_id
    delta_type := .sentimentDecoupling
    entity := entity
    detected_at := detected_at
    window_start := window_start
    window_end := window_end
    confidence := confidence
    deviation_score := |gap| / 2
    payload := .sentimentDecouplingPayload expected_sentiment
      observed_sentiment gap context_trigger z_score
      is_statistically_significant observed_tones expected_tones }

/-- Constructor + `__post_init__` of `VolumeAnomalyDelta`: when
`expected_volume > 0` it recomputes `volume_ratio` and `deviation_score`,
then unconditionally overwrites `is_collapse` with `volume_ratio < 0.5` and
sets `delta_type` accordingly (ignoring the constructor's `is_collapse`). -/
def mkVolumeAnomalyDelta (delta_id entity : String)
    (detected_at window_start window_end : DateTime)
    (expected_volume : ℚ) (observed_volume : ℕ)
    (volume_ratio baseline_volume volume_stddev z_score : ℚ)
    (_is_collapse : Bool) (unique_authors : ℕ) (expected_authors : ℚ)
    (confidence : ℚ) : Delta :=
  let ratio :=
    if expected_volume > 0 then observed_volume / expected_volume
    else volume_ratio
  let deviation := if expected_volume > 0 then |1 - ratio| else 0
  let collapse := decide (ratio < 1/2)
  { delta_id := delta_id
    delta_type := if collapse then .volumeCollapse else .volumeSpike
    entity := entity
    detected_at := detected_at
    window_start := window_start
    window_end := window_end
    confidence := confidence
    deviation_score := deviation
    payload := .volumeAnomalyPayload expected_volume observed_volume ratio
      baseline_volume volume_stddev z_score collapse unique_authors
      expected_authors }

/-- Constructor + `__post_init__` of `CoordinatedSilenceDelta`: sets
`deviation_score = coordination_score`. -/
def mkCoordinatedSilenceDelta (delta_id entity : String)
    (detected_at window_start window_end : DateTime)
    (silent_accounts silent_usernames : List String)
    (silence_start_times : List DateTime)
    (time_spread_hours coordination_score confidence : ℚ) : Delta :=
  { delta_id := delta_id
    delta_type := .coordinatedSilence
    entity := entity
    detected_at := detected_at
    window_start := window_start
    window_end := window_end
    confidence := confidence
    deviation_score := coordination_score
    payload := .coordinatedSilencePayload silent_accounts silent_usernames
      silence_start_times time_spread_hours coordination_score }

/-- A group of related deltas (`DeltaCluster`); `summary` is presentational
and not modelled. -/
structure DeltaCluster where
  cluster_id : String
  entity : String
  deltas : List Delta := []
  delta_types : List DeltaType := []
  first_delta_time : Option DateTime := none
  last_delta_time : Option DateTime := none
  combined_severity : DeltaSeverity := .medium
  combined_confidence : ℚ := 0
  reinforcement_score : ℚ := 0
deriving DecidableEq

namespace DeltaCluster

/-- Severity-weighted total weight of a delta list. -/
def totalWeight (ds : List Delta) : ℕ :=
  (ds.map (fun d => d.severity.weight)).sum

/-- Severity-weighted confidence sum of a delta list. -/
def weightedConfidence (ds : List Delta) : ℚ :=
  (ds.map (fun d => d.confidence * (d.severity.weight : ℚ))).sum

/-- Combined confidence as recomputed by `_recalculate_significance`:
severity-weighted mean of member confidences (0 when there is no weight). -/
def combinedConfidenceOf (ds : List Delta) : ℚ :=
  if totalWeight ds > 0 then weightedConfidence ds / totalWeight ds else 0

/-- Maximum member severity, scanning in order and keeping the earliest
maximum, starting from LOW (the loop in `_recalculate_significance`). -/
def maxSeverityOf (ds : List Delta) : DeltaSeverity :=
  ds.foldl (fun acc d =>
    if d.severity.weight > acc.weight then d.severity else acc) .low

/-- Model of `DeltaCluster._recalculate_significance`: recompute combined
confidence, severity (escalated one level when at least 3 distinct delta
types are present and severity is not already CRITICAL) and the
reinforcement score. The code returns early when `deltas` is empty. -/
def _recalculate_significance (c : DeltaCluster) : DeltaCluster :=
  if c.deltas.isEmpty then c
  else
    let combined := combinedConfidenceOf c.deltas
    let max_severity := maxSeverityOf c.deltas
    let unique_types := c.delta_types.dedup.length
    let boosted :=
      if unique_types ≥ 3 ∧ max_severity ≠ .critical then
        DeltaSeverity.ofIdx (min (max_severity.idx + 1) 3)
      else max_severity
    { c with
      combined_confidence := combined
      combined_severity := boosted
      reinforcement_score := min 1 ((unique_types : ℚ) / 4) }

/-- Model of `DeltaCluster.add_delta`: append, update the time bounds and
recalculate significance. -/
def add_delta (c : DeltaCluster) (d : Delta) : DeltaCluster :=
  let first :=
    match c.first_delta_time with
    | none => some d.detected_at
    | some t => if d.detected_at < t then some d.detected_at else some t
  let last :=
    match c.last_delta_time with
    | none => some d.detected_at
    | some t => if d.detected_at > t then some d.detected_at else some t
  _recalculate_significance
    { c with
      deltas := c.deltas ++ [d]
      delta_types := c.delta_types ++ [d.delta_type]
      first_delta_time := first
      last_delta_time := last }

end DeltaCluster

/-! ## Analyzers (`src/detection/analyzers/*.py`) -/

/-- Configuration of `TopicAbsenceAnalyzer`. -/
structure TopicAbsenceAnalyzer where
  threshold : ℚ := 3/10
deriving DecidableEq

/-- Loop body of `TopicAbsenceAnalyzer.analyze` over the expected topics,
threading the uuid counter. -/
def TopicAbsenceAnalyzer.analyzeGo (a : TopicAbsenceAnalyzer)
    (snapshot : DiscourseSnapshot) (expectation : DiscourseExpectation)
    (tnow : DateTime) (u : ℕ → String) :
    List ExpectedTopic → ℕ → List Delta × ℕ
  | [], k => ([], k)
  | expected_topic :: rest, k =>
      let observed_count := lookupD snapshot.topic_counts expected_topic.topic_id 0
      let expected_count := expected_topic.expected_mention_count
      if expected_count < 1 then
        a.analyzeGo snapshot expectation tnow u rest k
      else
        let ratio := (observed_count : ℚ) / expected_count
        if ratio < a.threshold then
          let is_required := expectation.is_topic_required expected_topic.topic_id
          let confidence0 := min (19/20) ((a.threshold - ratio) / a.threshold + 3/10)
          let confidence :=
            if is_required then min (99/100) (confidence0 + 1/5) else confidence0
          let d := mkTopicAbsenceDelta (u k) snapshot.entity tnow
            snapshot.window_start snapshot.window_end expected_topic.topic_id
            expected_topic.topic_name expected_count observed_count
            expected_count expected_topic.absence_severity is_required
            confidence
          let r := a.analyzeGo snapshot expectation tnow u rest (k + 1)
          (d :: r.1, r.2)
        else
          a.analyzeGo snapshot expectation tnow u rest k

/-- Model of `TopicAbsenceAnalyzer.analyze`. -/
def TopicAbsenceAnalyzer.analyze (a : TopicAbsenceAnalyzer)
    (snapshot : DiscourseSnapshot) (expectation : DiscourseExpectation)
    (tnow : DateTime) (u : ℕ → String) (k : ℕ) : List Delta × ℕ :=
  a.analyzeGo snapshot expectation tnow u expectation.expected_topics k

/-- Configuration of `VoiceSilenceAnalyzer` (its mutable `last_seen` map is
passed explicitly). -/
structure VoiceSilenceAnalyzer where
  threshold_hours : ℚ := 24
deriving DecidableEq

/-- Update `last_seen` for every active account of the snapshot, in order. -/
def VoiceSilenceAnalyzer.updateLastSeen (last_seen : List (String × DateTime))
    (accounts : List Account) (now : DateTime) : List (String × DateTime) :=
  accounts.foldl (fun m a => dictSet m a.account_id now) last_seen

/-- Loop body of `VoiceSilenceAnalyzer.analyze` over the expected voices. -/
def VoiceSilenceAnalyzer.analyzeGo (a : VoiceSilenceAnalyzer)
    (snapshot : DiscourseSnapshot) (tnow : DateTime)
    (last_seen : List (String × DateTime)) (active_ids : List String)
    (u : ℕ → String) : List ExpectedVoice → ℕ → List Delta × ℕ
  | [], k => ([], k)
  | expected_voice :: rest, k =>
      let now := snapshot.window_end
      if active_ids.contains expected_voice.account_id then
        a.analyzeGo snapshot tnow last_seen active_ids u rest k
      else if !(expected_voice.expected_to_be_active now) then
        a.analyzeGo snapshot tnow last_seen active_ids u rest k
      else
        let last_post := lookupOpt last_seen expected_voice.account_id
        let silence_hours :=
          match last_post with
          | some lp => (now - lp) / 3600
          | none => a.threshold_hours * 2
        if silence_hours ≥ a.threshold_hours then
          let window_hours := (snapshot.window_end - snapshot.window_start) / 3600
          let expected_posts :=
            expected_voice.expected_posts_per_day * window_hours / 24
          let silence_factor := min 1 (silence_hours / (a.threshold_hours * 2))
          let key_voice_factor : ℚ := if expected_voice.is_key_voice then 3/10 else 0
          let confidence :=
            min (19/20) (2/5 + silence_factor * (3/10) + key_voice_factor)
          let d := mkVoiceSilenceDelta (u k) snapshot.entity tnow
            snapshot.window_start snapshot.window_end
            expected_voice.account_id expected_voice.username
            (if expected_voice.is_key_voice then "key_voice" else "regular")
            silence_hours expected_posts 0 last_post
            expected_voice.expected_posts_per_day expected_voice.is_key_voice
            expected_voice.silence_severity confidence
          let r := a.analyzeGo snapshot tnow last_seen active_ids u rest (k + 1)
          (d :: r.1, r.2)
        else
          a.analyzeGo snapshot tnow last_seen active_ids u rest k

/-- Model of `VoiceSilenceAnalyzer.analyze`: first updates `last_seen` from
the snapshot's active accounts, then scans the expected voices; returns the
deltas, the new `last_seen` map and the next uuid index. -/
def VoiceSilenceAnalyzer.analyze (a : VoiceSilenceAnalyzer)
    (last_seen : List (String × DateTime)) (snapshot : DiscourseSnapshot)
    (expectation : DiscourseExpectation) (tnow : DateTime) (u : ℕ → String)
    (k : ℕ) : List Delta × List (String × DateTime) × ℕ :=
  let now := snapshot.window_end
  let active_ids := snapshot.active_accounts.map (fun acc => acc.account_id)
  let ls := updateLastSeen last_seen snapshot.active_accounts now
  let r := a.analyzeGo snapshot tnow ls active_ids u expectation.expected_voices k
  (r.1, ls, r.2)

/-- Configuration of `SentimentDecouplingAnalyzer`. -/
structure SentimentDecouplingAnalyzer where
  z_threshold : ℚ := 2
deriving DecidableEq

/-- Model of `SentimentDecouplingAnalyzer._infer_expected_tones`. -/
def inferExpectedTones (sentiment : ℚ) : List String :=
  if sentiment > 3/10 then ["positive", "optimistic"]
  else if sentiment < -(3/10) then ["negative", "concerned"]
  else ["neutral"]

/-- Model of `SentimentDecouplingAnalyzer._check_overall_sentiment`. -/
def SentimentDecouplingAnalyzer.checkOverallSentiment
    (a : SentimentDecouplingAnalyzer) (snapshot : DiscourseSnapshot)
    (expectation : DiscourseExpectation) (tnow : DateTime)
    (delta_id : String) : Option Delta :=
  let observed := snapshot.avg_sentiment
  let expected := expectation.expected_sentiment
  let stddev := expectation.baseline.sentiment_stddev
  if stddev = 0 then none
  else
    let z_score := (observed - expected) / stddev
    if |z_score| ≥ a.z_threshold then
      let confidence := min (19/20) (2/5 + (|z_score| - a.z_threshold) * (1/10))
      some (mkSentimentDecouplingDelta delta_id snapshot.entity tnow
        snapshot.window_start snapshot.window_end expected observed ""
        z_score true snapshot.dominant_tones (inferExpectedTones expected)
        confidence)
    else none

/-- Loop body of `SentimentDecouplingAnalyzer._check_topic_sentiments`. -/
def SentimentDecouplingAnalyzer.checkTopicSentimentsGo
    (a : SentimentDecouplingAnalyzer) (snapshot : DiscourseSnapshot)
    (tnow : DateTime) (u : ℕ → String) :
    List ExpectedTopic → ℕ → List Delta × ℕ
  | [], k => ([], k)
  | expected_topic :: rest, k =>
      match lookupOpt snapshot.topic_sentiments expected_topic.topic_id with
      | none => a.checkTopicSentimentsGo snapshot tnow u rest k
      | some observed =>
          let expected := expected_topic.expected_sentiment
          let stddev := expected_topic.sentiment_stddev
          if stddev = 0 then a.checkTopicSentimentsGo snapshot tnow u rest k
          else
            let z_score := (observed - expected) / stddev
            if |z_score| ≥ a.z_threshold then
              let confidence :=
                min (9/10) (3/10 + (|z_score| - a.z_threshold) * (1/10))
              let d := mkSentimentDecouplingDelta (u k) snapshot.entity tnow
                snapshot.window_start snapshot.window_end expected observed
                ("Topic: " ++ expected_topic.topic_name) z_score true [] []
                confidence
              let r := a.checkTopicSentimentsGo snapshot tnow u rest (k + 1)
              (d :: r.1, r.2)
            else
              a.checkTopicSentimentsGo snapshot tnow u rest k

/-- Model of `SentimentDecouplingAnalyzer.analyze`: the overall check first,
then the per-topic checks. -/
def SentimentDecouplingAnalyzer.analyze (a : SentimentDecouplingAnalyzer)
    (snapshot : DiscourseSnapshot) (expectation : DiscourseExpectation)
    (tnow : DateTime) (u : ℕ → String) (k : ℕ) : List Delta × ℕ :=
  match a.checkOverallSentiment snapshot expectation tnow (u k) with
  | some d =>
      let r := a.checkTopicSentimentsGo snapshot tnow u
        expectation.expected_topics (k + 1)
      (d :: r.1, r.2)
  | none =>
      a.checkTopicSentimentsGo snapshot tnow u expectation.expected_topics k

/-- Configuration of `VolumeAnomalyAnalyzer`. -/
structure VolumeAnomalyAnalyzer where
  collapse_threshold : ℚ := 1/2
  spike_threshold : ℚ := 2
  z_threshold : ℚ := 2
deriving DecidableEq

/-- Model of `VolumeAnomalyAnalyzer._create_volume_delta`. -/
def VolumeAnomalyAnalyzer.createVolumeDelta (a : VolumeAnomalyAnalyzer)
    (snapshot : DiscourseSnapshot) (expectation : DiscourseExpectation)
    (is_collapse : Bool) (ratio z_score : ℚ) (tnow : DateTime)
    (delta_id : String) : Delta :=
  let confidence :=
    if is_collapse then min (19/20) (1/2 + (a.collapse_threshold - ratio) * (1/2))
    else min (19/20) (2/5 + (ratio - a.spike_threshold) * (1/10))
  let unique_author_ratio :=
    if snapshot.total_posts > 0 then
      (snapshot.unique_authors : ℚ) / snapshot.total_posts
    else 0
  let expected_authors := expectation.expected_post_count * unique_author_ratio
  mkVolumeAnomalyDelta delta_id snapshot.entity tnow snapshot.window_start
    snapshot.window_end expectation.expected_post_count snapshot.total_posts
    ratio expectation.baseline.avg_posts_per_window
    expectation.baseline.post_stddev z_score is_collapse
    snapshot.unique_authors expected_authors confidence

/-- Model of `VolumeAnomalyAnalyzer.analyze`: returns nothing when the
expected volume is nonpositive; otherwise a collapse delta when
`ratio < collapse_threshold` (no z-score gate), else a spike delta when
`ratio > spike_threshold` and `|z| ≥ z_threshold`. -/
def VolumeAnomalyAnalyzer.analyze (a : VolumeAnomalyAnalyzer)
    (snapshot : DiscourseSnapshot) (expectation : DiscourseExpectation)
    (tnow : DateTime) (u : ℕ → String) (k : ℕ) : List Delta × ℕ :=
  let expected_volume := expectation.expected_post_count
  let observed_volume := snapshot.total_posts
  if expected_volume ≤ 0 then ([], k)
  else
    let ratio := (observed_volume : ℚ) / expected_volume
    let stddev := expectation.baseline.post_stddev
    let z_score :=
      if stddev > 0 then ((observed_volume : ℚ) - expected_volume) / stddev
      else 0
    if ratio < a.collapse_threshold then
      ([a.createVolumeDelta snapshot expectation true ratio z_score tnow (u k)],
        k + 1)
    else if ratio > a.spike_threshold ∧ |z_score| ≥ a.z_threshold then
      ([a.createVolumeDelta snapshot expectation false ratio z_score tnow (u k)],
        k + 1)
    else ([], k)

/-! ## Trigger manager (`src/expectation/context_triggers.py`) -/

/-- Model of Python `int(q)` (truncation toward zero). -/
def pyInt (q : ℚ) : ℤ := q.num / q.den

/-- Model of Python `min(l)` over a nonempty list (0 for the empty list,
unreachable on modelled paths). -/
def listMin : List ℚ → ℚ
  | [] => 0
  | x :: xs => xs.foldl min x

/-- Model of Python `max(l)` over a nonempty list (0 for the empty list,
unreachable on modelled paths). -/
def listMax : List ℚ → ℚ
  | [] => 0
  | x :: xs => xs.foldl max x

/-- Mutable state of `TriggerManager`. -/
structure TriggerManagerState where
  active_triggers : List (String × List ContextTrigger) := []
  scheduled_triggers : List ContextTrigger := []
deriving DecidableEq

namespace TriggerManagerState

/-- Model of `TriggerManager.add_trigger`: a trigger with a future
`start_time` (relative to the ambient clock `tnow`) is scheduled, any other
is appended to the per-entity active list. -/
def add_trigger (st : TriggerManagerState) (trigger : ContextTrigger)
    (tnow : DateTime) : TriggerManagerState :=
  let future := match trigger.start_time with
    | some s => decide (s > tnow)
    | none => false
  if future then
    { st with scheduled_triggers := st.scheduled_triggers ++ [trigger] }
  else
    let new_active := dictSet st.active_triggers trigger.entity
      (lookupD st.active_triggers trigger.entity [] ++ [trigger])
    { st with active_triggers := new_active }

/-- Model of `TriggerManager._activate_scheduled_triggers`. -/
def activate_scheduled (st : TriggerManagerState) (now tnow : DateTime) :
    TriggerManagerState :=
  let started := fun (t : ContextTrigger) => match t.start_time with
    | some s => decide (s ≤ now)
    | none => false
  let newly_active := st.scheduled_triggers.filter started
  let still_scheduled := st.scheduled_triggers.filter (fun t => !(started t))
  newly_active.foldl (fun acc t => acc.add_trigger t tnow)
    { st with scheduled_triggers := still_scheduled }

/-- Model of `TriggerManager.get_active_triggers`: promote due scheduled
triggers, filter the entity's active triggers by `is_active`, and clean up
expired ones; returns the list and the updated state. -/
def get_active_triggers (st : TriggerManagerState) (entity : String)
    (at_time tnow : DateTime) : List ContextTrigger × TriggerManagerState :=
  let st1 := st.activate_scheduled at_time tnow
  let active := (lookupD st1.active_triggers entity []).filter
    (fun t => t.is_active at_time)
  let st2 :=
    if (lookupOpt st1.active_triggers entity).isSome then
      let cleaned := dictSet st1.active_triggers entity
        ((lookupD st1.active_triggers entity []).filter
          (fun t => t.is_active at_time))
      { st1 with active_triggers := cleaned }
    else st1
  (active, st2)

end TriggerManagerState

/-! ## Expectation generator (`src/expectation/generator.py`) -/

/-- Cache of baselines by entity owned by `ExpectationGenerator`. -/
structure ExpectationGeneratorState where
  baselines : List (String × BaselinePattern) := []
deriving DecidableEq

/-- Model of the default factory of `DiscourseExpectation.baseline`: the
Python lambda executes the call `BaselinePattern(entity = "")`, but the
dataclass field `BaselinePattern.time_window` has no default, so the call
raises `TypeError`. -/
def baselineDefaultFactory : Except String BaselinePattern :=
  Except.error
    "TypeError: BaselinePattern missing 1 required positional argument: time_window"

/-- Model of `ExpectationGenerator._empty_expectation`: constructs a
`DiscourseExpectation` without passing `baseline`, so the default factory
runs (and raises, see `baselineDefaultFactory`). -/
def emptyExpectation (entity : String) (window_start window_end : DateTime) :
    Except String DiscourseExpectation :=
  match baselineDefaultFactory with
  | .error e => .error e
  | .ok b =>
      .ok { expectation_id :=
              "exp_" ++ entity ++ "_" ++ toString (pyInt window_start) ++ "_empty"
            entity := entity
            window_start := window_start
            window_end := window_end
            baseline := b
            expected_post_count := 0
            post_count_range := (0, ⊤)
            expected_sentiment := 0
            sentiment_range := (-1, 1)
            confidence := 1/10 }

/-- Model of `ExpectationGenerator._expectation_from_baseline`. -/
def expectationFromBaseline (entity : String) (baseline : BaselinePattern)
    (window_start window_end : DateTime) : DiscourseExpectation :=
  let expected_volume := baseline.expected_volume_at window_start
  let volume_min := max 0 (expected_volume - 2 * baseline.post_stddev)
  let volume_max := expected_volume + 2 * baseline.post_stddev
  let sentiment_min := baseline.avg_sentiment - 2 * baseline.sentiment_stddev
  let sentiment_max := baseline.avg_sentiment + 2 * baseline.sentiment_stddev
  let expected_topics := baseline.typical_topics.filter
    (fun t => t.confidence > 1/2)
  let expected_voices := baseline.typical_voices.filter
    (fun v => v.expected_to_be_active window_start)
  let required_topics := (expected_topics.filter
    (fun t => t.absence_severity > 7/10)).map (fun t => t.topic_id)
  let required_voices := (expected_voices.filter
    (fun v => v.is_key_voice)).map (fun v => v.account_id)
  { expectation_id := "exp_" ++ entity ++ "_" ++ toString (pyInt window_start)
    entity := entity
    window_start := window_start
    window_end := window_end
    baseline := baseline
    expected_post_count := expected_volume
    post_count_range := (volume_min, (volume_max : ℚ))
    expected_topics := expected_topics
    required_topics := required_topics
    expected_voices := expected_voices
    required_voices := required_voices
    expected_sentiment := baseline.avg_sentiment
    sentiment_range := (sentiment_min, sentiment_max)
    confidence := min (9/10) ((baseline.sample_size : ℚ) / 100) }

/-- Model of `ExpectationGenerator.generate_expectation`: look up the cached
baseline (the missing-baseline branch constructs the empty expectation,
which raises, see `emptyExpectation`); otherwise derive the expectation from
the baseline and apply every active trigger in order. -/
def generate_expectation (gs : ExpectationGeneratorState)
    (tm : TriggerManagerState) (entity : String)
    (window_start window_end tnow : DateTime) :
    Except String (DiscourseExpectation × TriggerManagerState) :=
  match lookupOpt gs.baselines entity with
  | none =>
      match emptyExpectation entity window_start window_end with
      | .error e => .error e
      | .ok e => .ok (e, tm)
  | some baseline =>
      let expectation := expectationFromBaseline entity baseline
        window_start window_end
      let r := tm.get_active_triggers entity window_start tnow
      let e' := r.1.foldl (fun e t => e.apply_trigger t) expectation
      .ok (e', r.2)

/-! ## Delta detector (`src/detection/delta_detector.py`) -/

/-- Configuration for delta detection (`DetectionConfig`). -/
structure DetectionConfig where
  topic_absence_threshold : ℚ := 3/10
  voice_silence_threshold_hours : ℚ := 24
  sentiment_deviation_threshold : ℚ := 2
  volume_collapse_threshold : ℚ := 1/2
  min_delta_confidence : ℚ := 1/2
  cluster_window_minutes : ℕ := 60
  min_cluster_size : ℕ := 2
deriving DecidableEq

/-- Mutable state of `DeltaDetector` (including the voice-silence analyzer's
`last_seen` map and the expectation generator's baseline cache and trigger
manager, used when no expectation is supplied). -/
structure DeltaDetectorState where
  last_seen : List (String × DateTime) := []
  recent_deltas : List Delta := []
  delta_history : List Delta := []
  gen_baselines : List (String × BaselinePattern) := []
  tm : TriggerManagerState := {}
deriving DecidableEq

namespace DeltaDetector

/-- Model of `DeltaDetector._calculate_severity`. -/
def calculateSeverity (delta : Delta) : DeltaSeverity :=
  let score := delta.deviation_score * delta.confidence
  if score ≥ 4/5 then .critical
  else if score ≥ 3/5 then .high
  else if score ≥ 2/5 then .medium
  else .low

/-- Loop of `DeltaDetector._detect_clusters` over the sorted deltas,
carrying the current cluster, the finished clusters and the uuid index. -/
def clustersGo (cfg : DetectionConfig) (entity : String) (u : ℕ → String) :
    List Delta → Option DeltaCluster → List DeltaCluster → ℕ →
    List DeltaCluster × ℕ
  | [], current, acc, k =>
      match current with
      | some c =>
          if c.deltas.length ≥ cfg.min_cluster_size then (acc ++ [c], k)
          else (acc, k)
      | none => (acc, k)
  | d :: rest, none, acc, k =>
      let c := DeltaCluster.add_delta { cluster_id := u k, entity := entity } d
      clustersGo cfg entity u rest (some c) acc (k + 1)
  | d :: rest, some c, acc, k =>
      let within := match c.last_delta_time with
        | some lt =>
            decide (d.detected_at - lt ≤ (cfg.cluster_window_minutes : ℚ) * 60)
        | none => false
      if within then
        clustersGo cfg entity u rest (some (c.add_delta d)) acc k
      else
        let acc' :=
          if c.deltas.length ≥ cfg.min_cluster_size then acc ++ [c] else acc
        let c' := DeltaCluster.add_delta { cluster_id := u k, entity := entity } d
        clustersGo cfg entity u rest (some c') acc' (k + 1)

/-- Model of `DeltaDetector._detect_clusters`: filter the recent deltas for
the entity, sort by `detected_at` (stable) and group with a 60-minute gap
rule, keeping groups of at least `min_cluster_size`. -/
def detectClusters (cfg : DetectionConfig) (recent : List Delta)
    (entity : String) (u : ℕ → String) (k : ℕ) : List DeltaCluster × ℕ :=
  let entity_deltas := recent.filter (fun d => d.entity == entity)
  if entity_deltas.length < cfg.min_cluster_size then ([], k)
  else
    let sorted := entity_deltas.mergeSort
      (fun d1 d2 => decide (d1.detected_at ≤ d2.detected_at))
    clustersGo cfg entity u sorted none [] k

/-- Core of `DeltaDetector.detect` once the expectation is available: run
the four analyzers in order, filter by confidence, assign severity, extend
the rolling history, and re-cluster (clusters only feed callbacks). -/
def detectWith (cfg : DetectionConfig) (st : DeltaDetectorState)
    (snapshot : DiscourseSnapshot) (expectation : DiscourseExpectation)
    (tnow : DateTime) (u : ℕ → String) (k : ℕ) :
    List Delta × DeltaDetectorState × ℕ :=
  let ta : TopicAbsenceAnalyzer := { threshold := cfg.topic_absence_threshold }
  let vs : VoiceSilenceAnalyzer :=
    { threshold_hours := cfg.voice_silence_threshold_hours }
  let sd : SentimentDecouplingAnalyzer :=
    { z_threshold := cfg.sentiment_deviation_threshold }
  let va : VolumeAnomalyAnalyzer :=
    { collapse_threshold := cfg.volume_collapse_threshold }
  let r1 := ta.analyze snapshot expectation tnow u k
  let r2 := vs.analyze st.last_seen snapshot expectation tnow u r1.2
  let r3 := sd.analyze snapshot expectation tnow u r2.2.2
  let r4 := va.analyze snapshot expectation tnow u r3.2
  let all_deltas := r1.1 ++ r2.1 ++ r3.1 ++ r4.1
  let filtered := all_deltas.filter
    (fun d => d.confidence ≥ cfg.min_delta_confidence)
  let deltas := filtered.map (fun d => { d with severity := calculateSeverity d })
  let st' := { st with
    last_seen := r2.2.1
    recent_deltas := st.recent_deltas ++ deltas
    delta_history := st.delta_history ++ deltas }
  let rc := detectClusters cfg st'.recent_deltas snapshot.entity u r4.2
  (deltas, st', rc.2)

/-- Model of `DeltaDetector.detect`: generate the expectation when not
supplied (this path can raise, see `emptyExpectation`), then run the core. -/
def detect (cfg : DetectionConfig) (st : DeltaDetectorState)
    (snapshot : DiscourseSnapshot)
    (expectationOpt : Option DiscourseExpectation) (tnow : DateTime)
    (u : ℕ → String) (k : ℕ) :
    Except String (List Delta × DeltaDetectorState × ℕ) :=
  match expectationOpt with
  | some e => .ok (detectWith cfg st snapshot e tnow u k)
  | none =>
      match generate_expectation { baselines := st.gen_baselines } st.tm
        snapshot.entity snapshot.window_start snapshot.window_end tnow with
      | .error e => .error e
      | .ok (expectation, tm') =>
          .ok (detectWith cfg { st with tm := tm' } snapshot expectation tnow u k)

/-- Extract the `last_post_time` of a voice-silence payload. -/
def voiceSilenceLastPost : DeltaPayload → Option DateTime
  | .voiceSilencePayload _ _ _ _ _ _ lpt _ _ _ => lpt
  | _ => none

/-- Whether a payload is a voice-silence payload (the model of
`isinstance(d, VoiceSilenceDelta)`). -/
def isVoiceSilencePayload : DeltaPayload → Bool
  | .voiceSilencePayload _ _ _ _ _ _ _ _ _ _ => true
  | _ => false

/-- Extract the silent account id of a voice-silence payload ("" otherwise;
unreachable on modelled paths). -/
def silentAccountIdOf : DeltaPayload → String
  | .voiceSilencePayload a _ _ _ _ _ _ _ _ _ => a
  | _ => ""

/-- Extract the silent username of a voice-silence payload ("" otherwise;
unreachable on modelled paths). -/
def silentUsernameOf : DeltaPayload → String
  | .voiceSilencePayload _ n _ _ _ _ _ _ _ _ => n
  | _ => ""

/-- Model of `DeltaDetector.detect_coordinated_silence`: from the rolling
history, gather the voice-silence deltas for the snapshot's entity; when at
least 2 exist, collect the set `last_post_time` values; when at least one is
set and their spread is strictly under 6 hours, emit a coordinated-silence
delta with `coordination_score = 1 - spread / 6` and
`confidence = score * 0.8`. -/
def detect_coordinated_silence (st : DeltaDetectorState)
    (snapshot : DiscourseSnapshot) (_expectation : DiscourseExpectation)
    (tnow : DateTime) (u : ℕ → String) (k : ℕ) : Option Delta :=
  let silent_deltas := st.recent_deltas.filter (fun d =>
    (d.delta_type == DeltaType.voiceSilence) && (d.entity == snapshot.entity)
      && isVoiceSilencePayload d.payload)
  if silent_deltas.length < 2 then none
  else
    let silence_times := silent_deltas.filterMap
      (fun d => voiceSilenceLastPost d.payload)
    if silence_times.isEmpty then none
    else
      let min_time := listMin silence_times
      let max_time := listMax silence_times
      let spread_hours := (max_time - min_time) / 3600
      if spread_hours < 6 then
        let coordination_score := 1 - spread_hours / 6
        some (mkCoordinatedSilenceDelta (u k) snapshot.entity tnow
          snapshot.window_start snapshot.window_end
          (silent_deltas.map (fun d => silentAccountIdOf d.payload))
          (silent_deltas.map (fun d => silentUsernameOf d.payload))
          silence_times spread_hours coordination_score
          (coordination_score * (4/5)))
      else none

end DeltaDetector

/-! ## Baseline builder (`src/expectation/baseline_builder.py`) -/

/-- Configuration of `BaselineBuilder`; machine floats are exact rationals
here, so the square root inside `statistics.stdev` is kept as the explicit
parameter `sqrtFn` (every theorem below holds for every `sqrtFn`). -/
structure BaselineBuilder where
  lookback_days : ℕ := 30
  min_samples : ℕ := 10
  sqrtFn : ℚ → ℚ

/-- Model of `statistics.stdev` (sample standard deviation); callers only
reach it with at least two samples. -/
def BaselineBuilder.stdev (b : BaselineBuilder) (xs : List ℚ) : ℚ :=
  b.sqrtFn (sampleVariance xs)

/-- Per-hour total-post lists (`hourly_counts[hour]`), in snapshot order. -/
def hourCounts (snapshots : List DiscourseSnapshot) (h : ℕ) : List ℚ :=
  (snapshots.filter (fun s => s.window_start.hour == h)).map
    (fun s => (s.total_posts : ℚ))

/-- Per-day total-post lists (`daily_counts[day]`), in snapshot order. -/
def dayCounts (snapshots : List DiscourseSnapshot) (d : ℕ) : List ℚ :=
  (snapshots.filter (fun s => s.window_start.weekday == d)).map
    (fun s => (s.total_posts : ℚ))

/-- Model of `BaselineBuilder._compute_hourly_pattern`: per-hour averages
(`dict.get(hour, [0])` default) normalized to the maximum. -/
def computeHourlyPattern (snapshots : List DiscourseSnapshot) : List ℚ :=
  let hourly_avgs := (List.range 24).map (fun h =>
    let counts := hourCounts snapshots h
    pyMean (if counts.isEmpty then [0] else counts))
  let max_vol := pyMaxD1 hourly_avgs
  if max_vol > 0 then hourly_avgs.map (fun v => v / max_vol) else hourly_avgs

/-- Model of `BaselineBuilder._compute_daily_pattern`. -/
def computeDailyPattern (snapshots : List DiscourseSnapshot) : List ℚ :=
  let daily_avgs := (List.range 7).map (fun d =>
    let counts := dayCounts snapshots d
    pyMean (if counts.isEmpty then [0] else counts))
  let max_vol := pyMaxD1 daily_avgs
  if max_vol > 0 then daily_avgs.map (fun v => v / max_vol) else daily_avgs

/-- Model of `BaselineBuilder._compute_volume_stats`. -/
def BaselineBuilder.computeVolumeStats (b : BaselineBuilder)
    (snapshots : List DiscourseSnapshot) : ℚ × ℚ :=
  let volumes := snapshots.map (fun s => (s.total_posts : ℚ))
  if volumes.isEmpty then (0, 0)
  else (pyMean volumes, if volumes.length > 1 then b.stdev volumes else 0)

/-- Model of `BaselineBuilder._compute_topic_expectations`: per topic seen in
at least `min_samples` snapshots, mention/sentiment statistics plus the
frequency/consistency importance score, sorted by descending
`absence_severity` (stable). -/
def BaselineBuilder.computeTopicExpectations (b : BaselineBuilder)
    (snapshots : List DiscourseSnapshot) : List ExpectedTopic :=
  let topic_ids := firstDedup
    ((snapshots.map (fun s => s.topic_counts.map Prod.fst)).flatten)
  let expectations := topic_ids.filterMap (fun topic_id =>
    let counts := snapshots.filterMap (fun s =>
      (lookupOpt s.topic_counts topic_id).map Nat.cast)
    if counts.length < b.min_samples then none
    else
      let avg_count := pyMean counts
      let count_std := if counts.length > 1 then b.stdev counts else 0
      let sentiments_raw := snapshots.filterMap (fun s =>
        lookupOpt s.topic_sentiments topic_id)
      let sentiments := if sentiments_raw.isEmpty then [0] else sentiments_raw
      let avg_sentiment := pyMean sentiments
      let sentiment_std := if sentiments.length > 1 then b.stdev sentiments else 0
      let frequency_score := min 1 ((counts.length : ℚ) / snapshots.length)
      let consistency_score := 1 - count_std / (avg_count + 1)
      let importance := (frequency_score + consistency_score) / 2
      some { topic_id := topic_id
             topic_name := (topic_id.splitOn ":").getLastD topic_id
             expected_mention_count := avg_count
             mention_stddev := count_std
             expected_sentiment := avg_sentiment
             sentiment_stddev := sentiment_std
             confidence := frequency_score
             sample_size := counts.length
             absence_severity := importance })
  expectations.mergeSort
    (fun t1 t2 => decide (t1.absence_severity ≥ t2.absence_severity))

/-- Model of `BaselineBuilder._compute_voice_expectations`: per account
active in at least `min_samples // 2` snapshots, activity statistics and the
presence-rate-scaled silence severity, sorted by descending
`silence_severity` (stable). -/
def BaselineBuilder.computeVoiceExpectations (b : BaselineBuilder)
    (snapshots : List DiscourseSnapshot) : List ExpectedVoice :=
  let account_ids := firstDedup
    (snapshots.flatMap (fun s => s.active_accounts.map (fun a => a.account_id)))
  let expectations := account_ids.filterMap (fun account_id =>
    let activity := snapshots.flatMap (fun s =>
      (s.active_accounts.filter (fun acc => acc.account_id == account_id)).map
        (fun _ =>
          ((s.posts.filter
            (fun p => p.author.account_id == account_id)).length : ℚ)))
    if activity.length < b.min_samples / 2 then none
    else
      match ((snapshots.flatMap (fun s => s.active_accounts)).filter
          (fun acc => acc.account_id == account_id)).getLast? with
      | none => none
      | some account =>
          let avg_posts := pyMean activity
          let post_std := if activity.length > 1 then b.stdev activity else 0
          let presence_rate := (activity.length : ℚ) / snapshots.length
          some { account_id := account_id
                 username := account.username
                 expected_posts_per_day := avg_posts * (24 / 1)
                 post_stddev := post_std
                 typical_topics := []
                 typical_sentiment := 0
                 silence_severity := presence_rate *
                   (if account.is_high_value then 4/5 else 3/10)
                 is_key_voice := account.is_high_value })
  expectations.mergeSort
    (fun v1 v2 => decide (v1.silence_severity ≥ v2.silence_severity))

/-- Model of `BaselineBuilder._compute_sentiment_stats`. -/
def BaselineBuilder.computeSentimentStats (b : BaselineBuilder)
    (snapshots : List DiscourseSnapshot) : ℚ × ℚ :=
  let sentiments := (snapshots.filter (fun s => s.total_posts > 0)).map
    (fun s => s.avg_sentiment)
  if sentiments.isEmpty then (0, 1/2)
  else (pyMean sentiments, if sentiments.length > 1 then b.stdev sentiments else 3/10)

/-- All (root author, responder) pairs across threads, excluding
self-replies, in iteration order. -/
def responsePairs (snapshots : List DiscourseSnapshot) : List (String × String) :=
  snapshots.flatMap (fun s => s.threads.flatMap (fun th =>
    match th.root_post with
    | none => []
    | some rp => th.replies.filterMap (fun rep =>
        if rep.author.account_id ≠ rp.author.account_id then
          some (rp.author.account_id, rep.author.account_id)
        else none)))

/-- Model of `BaselineBuilder._compute_response_patterns`: responders who
replied at least twice to an author. -/
def computeResponsePatterns (snapshots : List DiscourseSnapshot) :
    List (String × List String) :=
  let pairs := responsePairs snapshots
  let authors := firstDedup (pairs.map Prod.fst)
  authors.filterMap (fun author_id =>
    let responders := firstDedup
      ((pairs.filter (fun p => p.1 == author_id)).map Prod.snd)
    let typical := responders.filter (fun r =>
      (pairs.filter (fun p => p.1 == author_id && p.2 == r)).length ≥ 2)
    if typical.isEmpty then none else some (author_id, typical))

/-- Model of `BaselineBuilder.build_baseline`: an all-default baseline for an
empty history, otherwise the statistics of the time-sorted snapshots. -/
def BaselineBuilder.build_baseline (b : BaselineBuilder) (entity : String)
    (snapshots : List DiscourseSnapshot) (time_window : TimeWindow)
    (tnow : DateTime) : BaselinePattern :=
  if snapshots.isEmpty then { entity := entity, time_window := time_window }
  else
    let sorted := snapshots.mergeSort
      (fun s1 s2 => decide (s1.window_start ≤ s2.window_start))
    let vstats := b.computeVolumeStats sorted
    let sstats := b.computeSentimentStats sorted
    { entity := entity
      time_window := time_window
      avg_posts_per_window := vstats.1
      post_stddev := vstats.2
      hourly_volume_pattern := computeHourlyPattern sorted
      daily_volume_pattern := computeDailyPattern sorted
      avg_sentiment := sstats.1
      sentiment_stddev := sstats.2
      typical_topics := b.computeTopicExpectations sorted
      typical_voices := b.computeVoiceExpectations sorted
      voice_response_patterns := computeResponsePatterns sorted
      sample_start := sorted.head?.map (fun s => s.window_start)
      sample_end := sorted.getLast?.map (fun s => s.window_end)
      sample_size := snapshots.length
      last_updated := some tnow }

/-- Model of `BaselineBuilder._merge_topics`: union of topic ids (the Python
`set` union is modelled in first-occurrence order, existing first); shared
ids are decay-merged (name and summed sample size from the new side, other
unlisted fields reset to dataclass defaults), ids only in `existing` get a
decayed mention count, ids only in `new` are adopted as-is. -/
def BaselineBuilder.mergeTopics (existing new : List ExpectedTopic)
    (decay : ℚ) : List ExpectedTopic :=
  let all_ids := firstDedup
    (existing.map (fun t => t.topic_id) ++ new.map (fun t => t.topic_id))
  all_ids.filterMap (fun topic_id =>
    let old := (existing.filter (fun t => t.topic_id == topic_id)).getLast?
    let current := (new.filter (fun t => t.topic_id == topic_id)).getLast?
    match old, current with
    | some o, some c =>
        some { topic_id := topic_id
               topic_name := c.topic_name
               expected_mention_count :=
                 o.expected_mention_count * decay +
                   c.expected_mention_count * (1 - decay)
               mention_stddev :=
                 o.mention_stddev * decay + c.mention_stddev * (1 - decay)
               expected_sentiment :=
                 o.expected_sentiment * decay +
                   c.expected_sentiment * (1 - decay)
               sentiment_stddev :=
                 o.sentiment_stddev * decay + c.sentiment_stddev * (1 - decay)
               sample_size := o.sample_size + c.sample_size }
    | some o, none =>
        some { o with expected_mention_count := o.expected_mention_count * decay }
    | none, some c => some c
    | none, none => none)

/-- Model of `BaselineBuilder._merge_voices` (same shape as `mergeTopics`). -/
def BaselineBuilder.mergeVoices (existing new : List ExpectedVoice)
    (decay : ℚ) : List ExpectedVoice :=
  let all_ids := firstDedup
    (existing.map (fun v => v.account_id) ++ new.map (fun v => v.account_id))
  all_ids.filterMap (fun account_id =>
    let old := (existing.filter (fun v => v.account_id == account_id)).getLast?
    let current := (new.filter (fun v => v.account_id == account_id)).getLast?
    match old, current with
    | some o, some c =>
        some { account_id := account_id
               username := c.username
               expected_posts_per_day :=
                 o.expected_posts_per_day * decay +
                   c.expected_posts_per_day * (1 - decay)
               post_stddev := o.post_stddev * decay + c.post_stddev * (1 - decay)
               is_key_voice := o.is_key_voice || c.is_key_voice
               silence_severity := max o.silence_severity c.silence_severity }
    | some o, none => some o
    | none, some c => some c
    | none, none => none)

/-- Model of `BaselineBuilder.update_baseline`: build a fresh baseline from
the new snapshots, then merge every listed field as
`old * decay + new * (1 - decay)`; topic/voice lists are merged by id union;
the unlisted fields (`topic_co_occurrence`, `voice_response_patterns`) keep
dataclass defaults on the merged object. -/
def BaselineBuilder.update_baseline (b : BaselineBuilder)
    (existing : BaselinePattern) (new_snapshots : List DiscourseSnapshot)
    (decay_factor : ℚ) (tnow : DateTime) : BaselinePattern :=
  if new_snapshots.isEmpty then existing
  else
    let new_baseline := b.build_baseline existing.entity new_snapshots
      existing.time_window tnow
    { entity := existing.entity
      time_window := existing.time_window
      avg_posts_per_window :=
        existing.avg_posts_per_window * decay_factor +
          new_baseline.avg_posts_per_window * (1 - decay_factor)
      post_stddev :=
        existing.post_stddev * decay_factor +
          new_baseline.post_stddev * (1 - decay_factor)
      hourly_volume_pattern := (List.range 24).map (fun i =>
        existing.hourly_volume_pattern.getD i 0 * decay_factor +
          new_baseline.hourly_volume_pattern.getD i 0 * (1 - decay_factor))
      daily_volume_pattern := (List.range 7).map (fun i =>
        existing.daily_volume_pattern.getD i 0 * decay_factor +
          new_baseline.daily_volume_pattern.getD i 0 * (1 - decay_factor))
      avg_sentiment :=
        existing.avg_sentiment * decay_factor +
          new_baseline.avg_sentiment * (1 - decay_factor)
      sentiment_stddev :=
        existing.sentiment_stddev * decay_factor +
          new_baseline.sentiment_stddev * (1 - decay_factor)
      typical_topics := BaselineBuilder.mergeTopics existing.typical_topics
        new_baseline.typical_topics decay_factor
      typical_voices := BaselineBuilder.mergeVoices existing.typical_voices
        new_baseline.typical_voices decay_factor
      sample_start := existing.sample_start
      sample_end := new_snapshots.getLast?.map (fun s => s.window_end)
      sample_size := existing.sample_size + new_snapshots.length
      last_updated := some tnow }

/-! ## Event models and classifier (`src/models/event.py`,
`src/detection/classifier.py`) -/

/-- Types of events detectable from discourse deltas (`EventType`). -/
inductive EventType where
  | informationLeak | informationSuppression | sentimentShift
  | confidenceLoss | insiderActivity | coordinationDetected
  | preAnnouncement | crisisEmerging | relationshipChange
  | departureSignal | anomalyDetected
deriving DecidableEq

/-- Severity of a detected event (`EventSeverity`). -/
inductive EventSeverity where
  | noise | minor | notable | significant | major
deriving DecidableEq

namespace EventSeverity

/-- Position in `list(EventSeverity)` (declaration order NOISE..MAJOR). -/
def idx : EventSeverity → ℕ
  | .noise => 0
  | .minor => 1
  | .notable => 2
  | .significant => 3
  | .major => 4

/-- Inverse of `idx`, the model of `list(EventSeverity)[i]`. -/
def ofIdx : ℕ → EventSeverity
  | 0 => .noise
  | 1 => .minor
  | 2 => .notable
  | 3 => .significant
  | _ => .major

end EventSeverity

/-- Classification output of the event classifier (`EventClassification`);
the `reasoning` text is presentational and not modelled. -/
structure EventClassification where
  primary_type : EventType
  primary_confidence : ℚ
  type_probabilities : List (EventType × ℚ) := []
  severity : EventSeverity := .notable
  severity_confidence : ℚ := 1/2
  predicted_direction : Option String := none
  direction_confidence : ℚ := 0
  predicted_magnitude : Option String := none
  magnitude_confidence : ℚ := 0
  predicted_timing : Option String := none
  timing_confidence : ℚ := 0
deriving DecidableEq

/-- A detected event (`DetectedEvent`); presentational string fields
(`title`, `description`, evidence lists) are not modelled. -/
structure DetectedEvent where
  event_id : String
  entity : String
  event_type : EventType
  classification : EventClassification
  detected_at : DateTime
  event_window_start : DateTime
  event_window_end : DateTime
  source_deltas : List String := []
  source_cluster : Option String := none
  severity : EventSeverity := .notable
  confidence : ℚ := 1/2
  status : String := "detected"
deriving DecidableEq

/-- Model of `DetectedEvent.from_delta`. -/
def DetectedEvent.from_delta (delta : Delta)
    (classification : EventClassification) (entity : String)
    (tnow : DateTime) (event_id : String) : DetectedEvent :=
  { event_id := event_id
    entity := entity
    event_type := classification.primary_type
    classification := classification
    detected_at := tnow
    event_window_start := delta.window_start
    event_window_end := delta.window_end
    source_deltas := [delta.delta_id]
    severity := classification.severity
    confidence := classification.primary_confidence }

/-- Model of `DetectedEvent.from_cluster`: the event confidence is the
classification confidence scaled by the cluster's reinforcement score. -/
def DetectedEvent.from_cluster (cluster : DeltaCluster)
    (classification : EventClassification) (tnow : DateTime)
    (event_id : String) : DetectedEvent :=
  { event_id := event_id
    entity := cluster.entity
    event_type := classification.primary_type
    classification := classification
    detected_at := tnow
    event_window_start := cluster.first_delta_time.getD tnow
    event_window_end := cluster.last_delta_time.getD tnow
    source_deltas := cluster.deltas.map (fun d => d.delta_id)
    source_cluster := some cluster.cluster_id
    severity := classification.severity
    confidence := classification.primary_confidence * cluster.reinforcement_score }

/-- The static table `DELTA_EVENT_MAPPINGS`, in source order (Python dict
insertion order). -/
def DELTA_EVENT_MAPPINGS : List (List DeltaType × List (EventType × ℚ)) :=
  [([.topicAbsence],
      [(.informationSuppression, 3/5), (.preAnnouncement, 3/10)]),
   ([.voiceSilence],
      [(.insiderActivity, 1/2), (.departureSignal, 3/10)]),
   ([.sentimentDecoupling],
      [(.confidenceLoss, 1/2), (.sentimentShift, 2/5)]),
   ([.volumeCollapse],
      [(.informationSuppression, 2/5), (.preAnnouncement, 2/5)]),
   ([.coordinatedSilence],
      [(.coordinationDetected, 4/5), (.informationSuppression, 3/5)]),
   ([.topicAbsence, .voiceSilence],
      [(.informationSuppression, 4/5), (.crisisEmerging, 1/2)]),
   ([.sentimentDecoupling, .volumeSpike],
      [(.crisisEmerging, 7/10), (.sentimentShift, 1/2)]),
   ([.voiceSilence, .sentimentDecoupling],
      [(.insiderActivity, 7/10), (.confidenceLoss, 3/5)])]

/-- Distinct delta types sorted by their string value, the key computed by
`EventClassifier.classify_cluster`. -/
def sortedDistinctTypes (ts : List DeltaType) : List DeltaType :=
  ts.dedup.mergeSort (fun a b => decide (a.value ≤ b.value))

/-- Table lookup of `_classify_from_pattern`: exact match first, then the
first pattern (in table order) whose types are all contained in the key. -/
def mappingFor (delta_types : List DeltaType) :
    Option (List (EventType × ℚ)) :=
  match DELTA_EVENT_MAPPINGS.find? (fun p => p.1 == delta_types) with
  | some p => some p.2
  | none =>
      (DELTA_EVENT_MAPPINGS.find?
        (fun p => p.1.all (fun dt => delta_types.contains dt))).map
        (fun p => p.2)

namespace EventClassifier

/-- First-maximum member severity (the `max(deltas, key=...)` call of
`_determine_severity`); LOW-based fold, value-equal on the nonempty lists
the code reaches. -/
def maxDeltaSeverity (deltas : List Delta) : DeltaSeverity :=
  deltas.foldl
    (fun acc d => if d.severity.idx > acc.idx then d.severity else acc) .low

/-- Model of `EventClassifier._determine_severity`: map the maximum delta
severity up one notch, escalated one further notch for 3 or more deltas when
not already at the ceiling. -/
def determineSeverity (deltas : List Delta) : EventSeverity :=
  let base_severity :=
    match maxDeltaSeverity deltas with
    | .low => EventSeverity.minor
    | .medium => EventSeverity.notable
    | .high => EventSeverity.significant
    | .critical => EventSeverity.major
  if deltas.length ≥ 3 ∧ base_severity.idx < 4 then
    EventSeverity.ofIdx (base_severity.idx + 1)
  else base_severity

/-- Model of `EventClassifier._predict_direction` (`direction_map.get` with
default `(None, 0.3)`). -/
def predictDirection (event_type : EventType) : Option String × ℚ :=
  match event_type with
  | .informationSuppression => (some "down", 3/5)
  | .confidenceLoss => (some "down", 7/10)
  | .crisisEmerging => (some "down", 4/5)
  | .departureSignal => (some "down", 1/2)
  | .insiderActivity => (some "volatile", 3/5)
  | .coordinationDetected => (some "volatile", 1/2)
  | .sentimentShift => (some "volatile", 1/2)
  | .preAnnouncement => (some "volatile", 3/5)
  | .anomalyDetected => (none, 3/10)
  | _ => (none, 3/10)

/-- Model of `EventClassifier._predict_magnitude`. -/
def predictMagnitude (severity : EventSeverity) : String :=
  match severity with
  | .noise => "negligible"
  | .minor => "minor"
  | .notable => "minor"
  | .significant => "moderate"
  | .major => "major"

/-- Model of `EventClassifier._classify_from_pattern`: table lookup with the
`ANOMALY_DETECTED@0.3` fallback; on a match, the primary confidence is
rescaled by the average member confidence and capped at 0.95. -/
def classifyFromPattern (delta_types : List DeltaType) (deltas : List Delta) :
    EventClassification :=
  match mappingFor delta_types with
  | none =>
      { primary_type := .anomalyDetected
        primary_confidence := 3/10
        type_probabilities := [(.anomalyDetected, 3/10)]
        severity := .minor
        severity_confidence := 3/10 }
  | some mappings =>
      let hd := mappings.headD (.anomalyDetected, 3/10)
      let avg_confidence :=
        (deltas.map (fun d => d.confidence)).sum / deltas.length
      let primary_conf := min (19/20) (hd.2 * (1/2 + avg_confidence * (1/2)))
      let severity := determineSeverity deltas
      let dir := predictDirection hd.1
      { primary_type := hd.1
        primary_confidence := primary_conf
        type_probabilities := mappings
        severity := severity
        severity_confidence := avg_confidence
        predicted_direction := dir.1
        direction_confidence := dir.2
        predicted_magnitude := some (predictMagnitude severity)
        magnitude_confidence := 1/2 }

/-- Model of `EventClassifier.classify_delta`. -/
def classify_delta (delta : Delta) : EventClassification :=
  classifyFromPattern [delta.delta_type] [delta]

/-- Model of `EventClassifier.classify_cluster`. -/
def classify_cluster (cluster : DeltaCluster) : EventClassification :=
  classifyFromPattern (sortedDistinctTypes cluster.delta_types) cluster.deltas

/-- Model of `EventClassifier.create_event` (title generation is
presentational and not modelled): classify the cluster when given, a single
delta directly, and otherwise a synthetic cluster built by `add_delta`;
returns the event and the next uuid index. -/
def create_event (entity : String) (deltas : List Delta)
    (cluster : Option DeltaCluster) (tnow : DateTime) (u : ℕ → String)
    (k : ℕ) : DetectedEvent × ℕ :=
  match cluster with
  | some c =>
      (DetectedEvent.from_cluster c (classify_cluster c) tnow (u k), k + 1)
  | none =>
      match deltas with
      | [d] =>
          (DetectedEvent.from_delta d (classify_delta d) entity tnow (u k),
            k + 1)
      | _ =>
          let synthetic := deltas.foldl DeltaCluster.add_delta
            { cluster_id := u k, entity := entity }
          (DetectedEvent.from_cluster synthetic (classify_cluster synthetic)
            tnow (u (k + 1)), k + 2)

end EventClassifier

/-- Erase the uuid-derived id of a delta, keeping every other field; two
pipeline runs agree up to `eraseId` exactly when they agree on everything
except the randomly generated `delta_id` values. -/
def eraseId (d : Delta) : Delta := { d with delta_id := "" }

/-! ## Verified properties -/

/-- Extract the `is_collapse` flag of a volume-anomaly payload. -/
def DeltaPayload.volumeIsCollapse : DeltaPayload → Option Bool
  | .volumeAnomalyPayload _ _ _ _ _ _ c _ _ => some c
  | _ => none

/-- Extract the `missing_topic_id` of a topic-absence payload. -/
def DeltaPayload.missingTopicId : DeltaPayload → Option String
  | .topicAbsencePayload i _ _ _ _ _ _ => some i
  | _ => none

/-- Extract the coordination score of a coordinated-silence payload. -/
def DeltaPayload.coordinationScore : DeltaPayload → Option ℚ
  | .coordinatedSilencePayload _ _ _ _ s => some s
  | _ => none

/-- Emission condition of the topic-absence loop for one expected topic:
the expected count is at least 1 and the observed/expected ratio is below
the analyzer threshold. -/
def topicEmits (a : TopicAbsenceAnalyzer) (snapshot : DiscourseSnapshot)
    (e : ExpectedTopic) : Bool :=
  !(decide (e.expected_mention_count < 1)) &&
    decide (((lookupD snapshot.topic_counts e.topic_id 0 : ℕ) : ℚ) /
      e.expected_mention_count < a.threshold)

/-- Confidence assigned by the topic-absence loop to one emitted topic. -/
def topicConf (a : TopicAbsenceAnalyzer) (snapshot : DiscourseSnapshot)
    (expectation : DiscourseExpectation) (e : ExpectedTopic) : ℚ :=
  let ratio := ((lookupD snapshot.topic_counts e.topic_id 0 : ℕ) : ℚ) /
    e.expected_mention_count
  let confidence0 := min (19/20) ((a.threshold - ratio) / a.threshold + 3/10)
  if expectation.is_topic_required e.topic_id then
    min (99/100) (confidence0 + 1/5)
  else confidence0



/-- Post-init collapse flag of `mkVolumeAnomalyDelta` for a positive
expected volume. -/
theorem mkVolumeAnomalyDelta_flag
    (delta_id entity : String) (detected_at ws we : DateTime)
    (expected_volume : ℚ) (observed_volume : ℕ)
    (volume_ratio baseline_volume volume_stddev z_score : ℚ)
    (passed_is_collapse : Bool) (unique_authors : ℕ)
    (expected_authors confidence : ℚ)
    (h : 0 < expected_volume) :
    (mkVolumeAnomalyDelta delta_id entity detected_at ws we expected_volume
        observed_volume volume_ratio baseline_volume volume_stddev z_score
        passed_is_collapse unique_authors expected_authors
        confidence).payload.volumeIsCollapse
      = some (decide ((observed_volume : ℚ) / expected_volume < 1/2)) := by
  simp only [mkVolumeAnomalyDelta, if_pos h, DeltaPayload.volumeIsCollapse]

/-- Post-init delta type of `mkVolumeAnomalyDelta` for a positive expected
volume. -/
theorem mkVolumeAnomalyDelta_type
    (delta_id entity : String) (detected_at ws we : DateTime)
    (expected_volume : ℚ) (observed_volume : ℕ)
    (volume_ratio baseline_volume volume_stddev z_score : ℚ)
    (passed_is_collapse : Bool) (unique_authors : ℕ)
    (expected_authors confidence : ℚ)
    (h : 0 < expected_volume) :
    (mkVolumeAnomalyDelta delta_id entity detected_at ws we expected_volume
        observed_volume volume_ratio baseline_volume volume_stddev z_score
        passed_is_collapse unique_authors expected_authors
        confidence).delta_type
      = (if (observed_volume : ℚ) / expected_volume < 1/2 then
          DeltaType.volumeCollapse else DeltaType.volumeSpike) := by
  simp only [mkVolumeAnomalyDelta, if_pos h]
  by_cases hc : (observed_volume : ℚ) / expected_volume < 1/2 <;> simp [hc]

/-- Claim C10: for every `VolumeAnomalyDelta` constructed with
`expected_volume > 0`, `__post_init__` determines `is_collapse` and
`delta_type` solely from the ratio `observed_volume / expected_volume`
against the fixed constant 0.5, regardless of the `is_collapse` value passed
to the constructor and of any analyzer-configured threshold. -/
theorem c10_volume_post_init_determines_collapse
    (delta_id entity : String) (detected_at ws we : DateTime)
    (expected_volume : ℚ) (observed_volume : ℕ)
    (volume_ratio baseline_volume volume_stddev z_score : ℚ)
    (passed_is_collapse : Bool) (unique_authors : ℕ)
    (expected_authors confidence : ℚ)
    (h : 0 < expected_volume) :
    (mkVolumeAnomalyDelta delta_id entity detected_at ws we expected_volume
        observed_volume volume_ratio baseline_volume volume_stddev z_score
        passed_is_collapse unique_authors expected_authors
        confidence).payload.volumeIsCollapse
      = some (decide ((observed_volume : ℚ) / expected_volume < 1/2)) ∧
    (mkVolumeAnomalyDelta delta_id entity detected_at ws we expected_volume
        observed_volume volume_ratio baseline_volume volume_stddev z_score
        passed_is_collapse unique_authors expected_authors
        confidence).delta_type
      = (if (observed_volume : ℚ) / expected_volume < 1/2 then
          DeltaType.volumeCollapse else DeltaType.volumeSpike) :=
  ⟨mkVolumeAnomalyDelta_flag delta_id entity detected_at ws we expected_volume
      observed_volume volume_ratio baseline_volume volume_stddev z_score
      passed_is_collapse unique_authors expected_authors confidence h,
   mkVolumeAnomalyDelta_type delta_id entity detected_at ws we expected_volume
      observed_volume volume_ratio baseline_volume volume_stddev z_score
      passed_is_collapse unique_authors expected_authors confidence h⟩

/-- Witness for C10 at a concrete input: ratio 3 with `is_collapse = true`
passed; post-init still classifies the delta as a spike. -/
theorem c10_witness :
    (0 : ℚ) < 10 ∧
    ((mkVolumeAnomalyDelta "id" "e" 0 0 3600 10 30 0 0 0 0 true 5 0
        (1/2)).payload.volumeIsCollapse
        = some (decide ((30 : ℚ) / 10 < 1/2)) ∧
      (mkVolumeAnomalyDelta "id" "e" 0 0 3600 10 30 0 0 0 0 true 5 0
        (1/2)).delta_type
        = (if (30 : ℚ) / 10 < 1/2 then DeltaType.volumeCollapse
           else DeltaType.volumeSpike)) :=
  ⟨by norm_num,
   c10_volume_post_init_determines_collapse "id" "e" 0 0 3600 10 30 0 0 0 0
     true 5 0 (1/2) (by norm_num)⟩

/-- Claim C1: for the default-configured `VolumeAnomalyAnalyzer` and every
snapshot/expectation with positive expected volume, `analyze` emits exactly
one collapse delta when `ratio < 0.5` (no z-score gate), exactly one spike
delta (never classified as collapse) when `ratio > 2` and `|z| ≥ 2`, no
delta when `0.5 ≤ ratio ≤ 2`, and never both a collapse and a spike for a
single snapshot. -/
theorem c1_volume_anomaly_trichotomy (snapshot : DiscourseSnapshot)
    (expectation : DiscourseExpectation) (tnow : DateTime) (u : ℕ → String)
    (k : ℕ) (hpos : 0 < expectation.expected_post_count) :
    ((snapshot.total_posts : ℚ) / expectation.expected_post_count < 1/2 →
      (VolumeAnomalyAnalyzer.analyze {} snapshot expectation tnow u k).1.length
          = 1 ∧
      ∀ d ∈ (VolumeAnomalyAnalyzer.analyze {} snapshot expectation tnow u k).1,
        d.delta_type = DeltaType.volumeCollapse ∧
        d.payload.volumeIsCollapse = some true) ∧
    ((snapshot.total_posts : ℚ) / expectation.expected_post_count > 2 ∧
        |(if expectation.baseline.post_stddev > 0 then
            ((snapshot.total_posts : ℚ) - expectation.expected_post_count) /
              expectation.baseline.post_stddev
          else 0)| ≥ 2 →
      (VolumeAnomalyAnalyzer.analyze {} snapshot expectation tnow u k).1.length
          = 1 ∧
      ∀ d ∈ (VolumeAnomalyAnalyzer.analyze {} snapshot expectation tnow u k).1,
        d.delta_type = DeltaType.volumeSpike ∧
        d.payload.volumeIsCollapse = some false) ∧
    (1/2 ≤ (snapshot.total_posts : ℚ) / expectation.expected_post_count ∧
        (snapshot.total_posts : ℚ) / expectation.expected_post_count ≤ 2 →
      (VolumeAnomalyAnalyzer.analyze {} snapshot expectation tnow u k).1 = []) ∧
    ¬ (∃ d1 ∈ (VolumeAnomalyAnalyzer.analyze {} snapshot expectation tnow u k).1,
       ∃ d2 ∈ (VolumeAnomalyAnalyzer.analyze {} snapshot expectation tnow u k).1,
        d1.delta_type = DeltaType.volumeCollapse ∧
        d2.delta_type = DeltaType.volumeSpike) := by
  have hnotle : ¬ (expectation.expected_post_count ≤ 0) := not_le.mpr hpos
  by_cases hc : (snapshot.total_posts : ℚ) / expectation.expected_post_count < 1/2
  · have hc2 : (snapshot.total_posts : ℚ) / expectation.expected_post_count <
        ({} : VolumeAnomalyAnalyzer).collapse_threshold := hc
    have hout : (VolumeAnomalyAnalyzer.analyze {} snapshot expectation tnow u k).1
        = [VolumeAnomalyAnalyzer.createVolumeDelta {} snapshot expectation true
            ((snapshot.total_posts : ℚ) / expectation.expected_post_count)
            (if expectation.baseline.post_stddev > 0 then
              ((snapshot.total_posts : ℚ) - expectation.expected_post_count) /
                expectation.baseline.post_stddev
             else 0) tnow (u k)] := by
      simp only [VolumeAnomalyAnalyzer.analyze]
      rw [if_neg hnotle, if_pos hc2]
    have hd : ∀ d ∈ (VolumeAnomalyAnalyzer.analyze {} snapshot expectation
          tnow u k).1,
        d.delta_type = DeltaType.volumeCollapse ∧
        d.payload.volumeIsCollapse = some true := by
      rw [hout]
      intro d hdmem
      rw [List.mem_singleton] at hdmem
      subst hdmem
      simp only [VolumeAnomalyAnalyzer.createVolumeDelta]
      constructor
      · rw [mkVolumeAnomalyDelta_type _ _ _ _ _ _ _ _ _ _ _ _ _ _ _ hpos,
          if_pos hc]
      · rw [mkVolumeAnomalyDelta_flag _ _ _ _ _ _ _ _ _ _ _ _ _ _ _ hpos]
        simp only [Option.some.injEq, decide_eq_true_eq]
        exact hc
    refine ⟨fun _ => ⟨by rw [hout]; rfl, hd⟩,
      fun hs => absurd hs.1 (by linarith), fun hb => by linarith [hb.1], ?_⟩
    rintro ⟨d1, h1, d2, h2, _, ht2⟩
    have := (hd d2 h2).1
    rw [this] at ht2
    exact absurd ht2 (by simp)
  · have hc2 : ¬ ((snapshot.total_posts : ℚ) / expectation.expected_post_count <
        ({} : VolumeAnomalyAnalyzer).collapse_threshold) := hc
    by_cases hs : (snapshot.total_posts : ℚ) / expectation.expected_post_count > 2 ∧
        |(if expectation.baseline.post_stddev > 0 then
            ((snapshot.total_posts : ℚ) - expectation.expected_post_count) /
              expectation.baseline.post_stddev
          else 0)| ≥ 2
    · have hs2 : (snapshot.total_posts : ℚ) / expectation.expected_post_count >
          ({} : VolumeAnomalyAnalyzer).spike_threshold ∧
          |(if expectation.baseline.post_stddev > 0 then
              ((snapshot.total_posts : ℚ) - expectation.expected_post_count) /
                expectation.baseline.post_stddev
            else 0)| ≥ ({} : VolumeAnomalyAnalyzer).z_threshold := hs
      have hout : (VolumeAnomalyAnalyzer.analyze {} snapshot expectation tnow u k).1
          = [VolumeAnomalyAnalyzer.createVolumeDelta {} snapshot expectation false
              ((snapshot.total_posts : ℚ) / expectation.expected_post_count)
              (if expectation.baseline.post_stddev > 0 then
                ((snapshot.total_posts : ℚ) - expectation.expected_post_count) /
                  expectation.baseline.post_stddev
               else 0) tnow (u k)] := by
        simp only [VolumeAnomalyAnalyzer.analyze]
        rw [if_neg hnotle, if_neg hc2, if_pos hs2]
      have hd : ∀ d ∈ (VolumeAnomalyAnalyzer.analyze {} snapshot expectation
            tnow u k).1,
          d.delta_type = DeltaType.volumeSpike ∧
          d.payload.volumeIsCollapse = some false := by
        rw [hout]
        intro d hdmem
        rw [List.mem_singleton] at hdmem
        subst hdmem
        simp only [VolumeAnomalyAnalyzer.createVolumeDelta]
        constructor
        · rw [mkVolumeAnomalyDelta_type _ _ _ _ _ _ _ _ _ _ _ _ _ _ _ hpos,
            if_neg hc]
        · rw [mkVolumeAnomalyDelta_flag _ _ _ _ _ _ _ _ _ _ _ _ _ _ _ hpos]
          simp only [Option.some.injEq, decide_eq_false_iff_not]
          exact hc
      refine ⟨fun hcc => absurd hcc hc, fun _ => ⟨by rw [hout]; rfl, hd⟩,
        fun hb => by linarith [hb.2, hs.1], ?_⟩
      rintro ⟨d1, h1, d2, h2, ht1, _⟩
      have := (hd d1 h1).1
      rw [this] at ht1
      exact absurd ht1 (by simp)
    · have hs2 : ¬ ((snapshot.total_posts : ℚ) / expectation.expected_post_count >
          ({} : VolumeAnomalyAnalyzer).spike_threshold ∧
          |(if expectation.baseline.post_stddev > 0 then
              ((snapshot.total_posts : ℚ) - expectation.expected_post_count) /
                expectation.baseline.post_stddev
            else 0)| ≥ ({} : VolumeAnomalyAnalyzer).z_threshold) := hs
      have hout : (VolumeAnomalyAnalyzer.analyze {} snapshot expectation tnow u k).1
          = [] := by
        simp only [VolumeAnomalyAnalyzer.analyze]
        rw [if_neg hnotle, if_neg hc2, if_neg hs2]
      refine ⟨fun hcc => absurd hcc hc, fun hss => absurd hss hs,
        fun _ => hout, ?_⟩
      rintro ⟨d1, h1, _⟩
      rw [hout] at h1
      exact absurd h1 (List.not_mem_nil d1)

/-- Witness for C1 at the spec scenario (baseline 100, stddev 20, observed
30): the default analyzer emits exactly one volume delta. -/
theorem c1_witness :
    (VolumeAnomalyAnalyzer.analyze {}
      { entity := "e"
        window_start := 0
        window_end := 3600
        total_posts := 30
        unique_authors := 10 }
      { expectation_id := "x"
        entity := "e"
        window_start := 0
        window_end := 3600
        baseline := { entity := "e"
                      time_window := .hour
                      avg_posts_per_window := 100
                      post_stddev := 20 }
        expected_post_count := 100 }
      0 (fun _ => "u") 0).1.length = 1 :=
  ((c1_volume_anomaly_trichotomy
      { entity := "e"
        window_start := 0
        window_end := 3600
        total_posts := 30
        unique_authors := 10 }
      { expectation_id := "x"
        entity := "e"
        window_start := 0
        window_end := 3600
        baseline := { entity := "e"
                      time_window := .hour
                      avg_posts_per_window := 100
                      post_stddev := 20 }
        expected_post_count := 100 }
      0 (fun _ => "u") 0 (by norm_num)).1 (by norm_num)).1

/-- Characterization of the topic-absence loop: the confidences of the
emitted deltas for a given topic id are exactly the confidences of the
qualifying expected-topic entries with that id, in order. -/
theorem topicAbsence_analyzeGo_spec (a : TopicAbsenceAnalyzer)
    (snapshot : DiscourseSnapshot) (expectation : DiscourseExpectation)
    (tnow : DateTime) (u : ℕ → String) (ts : List ExpectedTopic) (k : ℕ)
    (tid : String) :
    (((a.analyzeGo snapshot expectation tnow u ts k).1.filter
        (fun d => d.payload.missingTopicId == some tid)).map
      (fun d => d.confidence))
    = ((ts.filter
          (fun e => (e.topic_id == tid) && topicEmits a snapshot e)).map
        (fun e => topicConf a snapshot expectation e)) := by
  induction ts generalizing k with
  | nil => simp [TopicAbsenceAnalyzer.analyzeGo]
  | cons e rest ih =>
      by_cases hlt : e.expected_mention_count < 1
      · have hemits : (((e.topic_id == tid) && topicEmits a snapshot e) : Bool)
            = false := by
          simp [topicEmits, hlt]
        rw [show (a.analyzeGo snapshot expectation tnow u (e :: rest) k)
            = a.analyzeGo snapshot expectation tnow u rest k by
          simp [TopicAbsenceAnalyzer.analyzeGo, hlt]]
        rw [List.filter_cons_of_neg (by simp [hemits])]
        exact ih k
      · by_cases hr : ((lookupD snapshot.topic_counts e.topic_id 0 : ℕ) : ℚ) /
            e.expected_mention_count < a.threshold
        · have hstep : (a.analyzeGo snapshot expectation tnow u (e :: rest) k)
              = (mkTopicAbsenceDelta (u k) snapshot.entity tnow
                  snapshot.window_start snapshot.window_end e.topic_id
                  e.topic_name e.expected_mention_count
                  (lookupD snapshot.topic_counts e.topic_id 0)
                  e.expected_mention_count e.absence_severity
                  (expectation.is_topic_required e.topic_id)
                  (if expectation.is_topic_required e.topic_id then
                    min (99/100)
                      (min (19/20)
                        ((a.threshold -
                          ((lookupD snapshot.topic_counts e.topic_id 0 : ℕ) : ℚ) /
                            e.expected_mention_count) / a.threshold + 3/10) +
                        1/5)
                   else
                    min (19/20)
                      ((a.threshold -
                        ((lookupD snapshot.topic_counts e.topic_id 0 : ℕ) : ℚ) /
                          e.expected_mention_count) / a.threshold + 3/10))
                  :: (a.analyzeGo snapshot expectation tnow u rest (k + 1)).1,
                 (a.analyzeGo snapshot expectation tnow u rest (k + 1)).2) := by
            simp only [TopicAbsenceAnalyzer.analyzeGo]
            rw [if_neg hlt, if_pos hr]
          rw [hstep]
          by_cases htid : (e.topic_id == tid) = true
          · have hemits : topicEmits a snapshot e = true := by
              simp [topicEmits, hlt, hr]
            rw [List.filter_cons_of_pos (by
              simp only [mkTopicAbsenceDelta, DeltaPayload.missingTopicId]
              simp only [beq_iff_eq] at htid
              simp [htid])]
            rw [List.filter_cons_of_pos (by simp [htid, hemits])]
            simp only [List.map_cons, ih (k + 1)]
            rfl
          · rw [List.filter_cons_of_neg (by
              simp only [mkTopicAbsenceDelta, DeltaPayload.missingTopicId]
              simp only [beq_iff_eq] at htid ⊢
              simpa using htid)]
            rw [List.filter_cons_of_neg (by simp [htid])]
            exact ih (k + 1)
        · have hemits : (((e.topic_id == tid) && topicEmits a snapshot e) : Bool)
              = false := by
            simp [topicEmits, hr]
          rw [show (a.analyzeGo snapshot expectation tnow u (e :: rest) k)
              = a.analyzeGo snapshot expectation tnow u rest k by
            simp [TopicAbsenceAnalyzer.analyzeGo, hlt, hr]]
          rw [List.filter_cons_of_neg (by simp [hemits])]
          exact ih k

/-- Claim C4: for an expected topic with `expected_mention_count ≥ 1` that
occurs exactly once in the expectation, `TopicAbsenceAnalyzer.analyze` emits
exactly one topic-absence delta for it when `ratio < threshold`, with
confidence `min(0.95, (threshold - ratio)/threshold + 0.3)`, raised by 0.2
and capped at 0.99 when the topic is required, and this confidence is at
least 0.3; when `ratio ≥ threshold` no delta is emitted for that topic. -/
theorem c4_topic_absence_confidence (a : TopicAbsenceAnalyzer)
    (snapshot : DiscourseSnapshot) (expectation : DiscourseExpectation)
    (tnow : DateTime) (u : ℕ → String) (k : ℕ) (et : ExpectedTopic)
    (hth : 0 < a.threshold)
    (hexp : 1 ≤ et.expected_mention_count)
    (huniq : expectation.expected_topics.filter
        (fun e => e.topic_id == et.topic_id) = [et]) :
    (((lookupD snapshot.topic_counts et.topic_id 0 : ℕ) : ℚ) /
        et.expected_mention_count < a.threshold →
      (((a.analyze snapshot expectation tnow u k).1.filter
          (fun d => d.payload.missingTopicId == some et.topic_id)).map
        (fun d => d.confidence))
        = [if expectation.is_topic_required et.topic_id then
            min (99/100)
              (min (19/20)
                ((a.threshold -
                  ((lookupD snapshot.topic_counts et.topic_id 0 : ℕ) : ℚ) /
                    et.expected_mention_count) / a.threshold + 3/10) + 1/5)
           else
            min (19/20)
              ((a.threshold -
                ((lookupD snapshot.topic_counts et.topic_id 0 : ℕ) : ℚ) /
                  et.expected_mention_count) / a.threshold + 3/10)] ∧
      ∀ d ∈ (a.analyze snapshot expectation tnow u k).1.filter
          (fun d => d.payload.missingTopicId == some et.topic_id),
        3/10 ≤ d.confidence) ∧
    (a.threshold ≤ ((lookupD snapshot.topic_counts et.topic_id 0 : ℕ) : ℚ) /
        et.expected_mention_count →
      (a.analyze snapshot expectation tnow u k).1.filter
        (fun d => d.payload.missingTopicId == some et.topic_id) = []) := by
  have hspec := topicAbsence_analyzeGo_spec a snapshot expectation tnow u
    expectation.expected_topics k et.topic_id
  have hfilter : expectation.expected_topics.filter
      (fun e => (e.topic_id == et.topic_id) && topicEmits a snapshot e)
      = [et].filter (fun e => topicEmits a snapshot e) := by
    rw [← huniq]
    rw [List.filter_filter]
    congr 1
    funext x
    exact Bool.and_comm _ _
  have hexp0 : (0:ℚ) < et.expected_mention_count := lt_of_lt_of_le one_pos hexp
  have hratio0 : (0:ℚ) ≤ ((lookupD snapshot.topic_counts et.topic_id 0 : ℕ) : ℚ) /
      et.expected_mention_count :=
    div_nonneg (Nat.cast_nonneg _) (le_of_lt hexp0)
  constructor
  · intro hr
    have hemits : topicEmits a snapshot et = true := by
      have h1 : ¬ (et.expected_mention_count < 1) := by linarith
      simp [topicEmits, hr, h1]
    have hmap : (((a.analyze snapshot expectation tnow u k).1.filter
        (fun d => d.payload.missingTopicId == some et.topic_id)).map
        (fun d => d.confidence))
        = [topicConf a snapshot expectation et] := by
      rw [TopicAbsenceAnalyzer.analyze, hspec, hfilter]
      simp [hemits]
    have hconfval : topicConf a snapshot expectation et
        = (if expectation.is_topic_required et.topic_id then
            min (99/100)
              (min (19/20)
                ((a.threshold -
                  ((lookupD snapshot.topic_counts et.topic_id 0 : ℕ) : ℚ) /
                    et.expected_mention_count) / a.threshold + 3/10) + 1/5)
           else
            min (19/20)
              ((a.threshold -
                ((lookupD snapshot.topic_counts et.topic_id 0 : ℕ) : ℚ) /
                  et.expected_mention_count) / a.threshold + 3/10)) := rfl
    have hge : 3/10 ≤ topicConf a snapshot expectation et := by
      have hx : (0:ℚ) < (a.threshold -
          ((lookupD snapshot.topic_counts et.topic_id 0 : ℕ) : ℚ) /
            et.expected_mention_count) / a.threshold :=
        div_pos (by linarith) hth
      rw [hconfval]
      by_cases hreq : expectation.is_topic_required et.topic_id
      · rw [if_pos hreq]
        refine le_min (by norm_num) ?_
        have : (3:ℚ)/10 ≤ min (19/20) ((a.threshold -
            ((lookupD snapshot.topic_counts et.topic_id 0 : ℕ) : ℚ) /
              et.expected_mention_count) / a.threshold + 3/10) :=
          le_min (by norm_num) (by linarith)
        linarith
      · rw [if_neg hreq]
        exact le_min (by norm_num) (by linarith)
    refine ⟨by rw [hmap, hconfval], ?_⟩
    intro d hd
    have : d.confidence ∈ (((a.analyze snapshot expectation tnow u k).1.filter
        (fun d => d.payload.missingTopicId == some et.topic_id)).map
        (fun d => d.confidence)) := List.mem_map_of_mem _ hd
    rw [hmap] at this
    rw [List.mem_singleton] at this
    rw [this]
    exact hge
  · intro hr
    have hemits : topicEmits a snapshot et = false := by
      simp only [topicEmits, Bool.and_eq_false_iff]
      right
      simpa using not_lt.mpr hr
    have hmap : (((a.analyze snapshot expectation tnow u k).1.filter
        (fun d => d.payload.missingTopicId == some et.topic_id)).map
        (fun d => d.confidence)) = [] := by
      rw [TopicAbsenceAnalyzer.analyze, hspec, hfilter]
      simp [hemits]
    exact List.map_eq_nil_iff.mp hmap

/-- Witness for C4 at a concrete input: expected topic with count 10, zero
observed mentions, not required; exactly one delta with confidence
`min(0.95, (0.3 - 0)/0.3 + 0.3) = 0.95` is emitted. -/
theorem c4_witness :
    ((TopicAbsenceAnalyzer.analyze {}
      { entity := "e"
        window_start := 0
        window_end := 3600 }
      { expectation_id := "x"
        entity := "e"
        window_start := 0
        window_end := 3600
        baseline := { entity := "e", time_window := .hour }
        expected_topics := [{ topic_id := "a"
                              topic_name := "a"
                              expected_mention_count := 10
                              mention_stddev := 0
                              expected_sentiment := 0
                              sentiment_stddev := 0 }] }
      0 (fun _ => "u") 0).1.filter
        (fun d => d.payload.missingTopicId == some "a")).map
      (fun d => d.confidence) = [19/20] := by
  have h := (c4_topic_absence_confidence {}
    { entity := "e"
      window_start := 0
      window_end := 3600 }
    { expectation_id := "x"
      entity := "e"
      window_start := 0
      window_end := 3600
      baseline := { entity := "e", time_window := .hour }
      expected_topics := [{ topic_id := "a"
                            topic_name := "a"
                            expected_mention_count := 10
                            mention_stddev := 0
                            expected_sentiment := 0
                            sentiment_stddev := 0 }] }
    0 (fun _ => "u") 0
    { topic_id := "a"
      topic_name := "a"
      expected_mention_count := 10
      mention_stddev := 0
      expected_sentiment := 0
      sentiment_stddev := 0 }
    (by norm_num) (by norm_num) (by simp)).1
    (by norm_num [lookupD, lookupOpt])
  rw [h.1]
  norm_num [DiscourseExpectation.is_topic_required, lookupD, lookupOpt,
    min_def]

/-- Counterexample to claim C5 as stated: adding a CRITICAL-severity member
with low confidence to a cluster holding one LOW-severity member of
confidence 0.9 strictly decreases the severity-weighted combined
confidence (0.9 to 0.18). -/
theorem c5_counterexample :
    (DeltaCluster.add_delta
      (DeltaCluster.add_delta { cluster_id := "c", entity := "e" }
        { delta_id := "d1"
          delta_type := .topicAbsence
          entity := "e"
          detected_at := 0
          window_start := 0
          window_end := 0
          severity := .low
          confidence := 9/10
          payload := .topicAbsencePayload "t" "t" 1 0 1 (1/2) false })
      { delta_id := "d2"
        delta_type := .voiceSilence
        entity := "e"
        detected_at := 0
        window_start := 0
        window_end := 0
        severity := .critical
        confidence := 0
        payload := .voiceSilencePayload "a" "a" "regular" 0 0 0 none 0 false
          0 }).combined_confidence
    < (DeltaCluster.add_delta { cluster_id := "c", entity := "e" }
        { delta_id := "d1"
          delta_type := .topicAbsence
          entity := "e"
          detected_at := 0
          window_start := 0
          window_end := 0
          severity := .low
          confidence := 9/10
          payload := .topicAbsencePayload "t" "t" 1 0 1 (1/2) false
          }).combined_confidence := by
  norm_num [DeltaCluster.add_delta, DeltaCluster._recalculate_significance,
    DeltaCluster.combinedConfidenceOf, DeltaCluster.totalWeight,
    DeltaCluster.weightedConfidence, DeltaCluster.maxSeverityOf,
    DeltaSeverity.weight]

/-- Sum of severity weights of an appended singleton. -/
theorem totalWeight_append (ds : List Delta) (d : Delta) :
    DeltaCluster.totalWeight (ds ++ [d])
      = DeltaCluster.totalWeight ds + d.severity.weight := by
  simp [DeltaCluster.totalWeight]

/-- Weighted confidence of an appended singleton. -/
theorem weightedConfidence_append (ds : List Delta) (d : Delta) :
    DeltaCluster.weightedConfidence (ds ++ [d])
      = DeltaCluster.weightedConfidence ds
          + d.confidence * (d.severity.weight : ℚ) := by
  simp [DeltaCluster.weightedConfidence]

/-- A delta list with zero total severity weight is empty (every severity
weighs at least 1). -/
theorem totalWeight_eq_zero (ds : List Delta)
    (h : DeltaCluster.totalWeight ds = 0) : ds = [] := by
  cases ds with
  | nil => rfl
  | cons d rest =>
      exfalso
      have hw : 1 ≤ d.severity.weight := by
        cases d.severity <;> simp [DeltaSeverity.weight]
      simp only [DeltaCluster.totalWeight, List.map_cons, List.sum_cons] at h
      omega

/-- Claim C5 (amended): adding a CRITICAL-severity member whose confidence
is at least the cluster's current combined confidence never decreases the
combined confidence; the unamended claim is false (see the counterexample),
because the combined confidence is a severity-weighted mean that moves
toward the confidence of the added member. -/
theorem c5_amended_critical_monotone (c : DeltaCluster) (d : Delta)
    (hsev : d.severity = DeltaSeverity.critical)
    (hwf : c.combined_confidence
      = DeltaCluster.combinedConfidenceOf c.deltas)
    (hconf : c.combined_confidence ≤ d.confidence) :
    c.combined_confidence ≤ (c.add_delta d).combined_confidence := by
  have hadd : (c.add_delta d).combined_confidence
      = DeltaCluster.combinedConfidenceOf (c.deltas ++ [d]) := by
    simp only [DeltaCluster.add_delta, DeltaCluster._recalculate_significance]
    rw [if_neg (by simp)]
  rw [hadd, hwf]
  rw [hwf] at hconf
  have hW4 : DeltaCluster.totalWeight (c.deltas ++ [d])
      = DeltaCluster.totalWeight c.deltas + 4 := by
    rw [totalWeight_append, hsev]
    rfl
  rcases Nat.eq_zero_or_pos (DeltaCluster.totalWeight c.deltas) with h0 | hpos
  · have hnil : c.deltas = [] := totalWeight_eq_zero _ h0
    have h0' : DeltaCluster.combinedConfidenceOf c.deltas = 0 := by
      rw [hnil]
      simp [DeltaCluster.combinedConfidenceOf, DeltaCluster.totalWeight]
    rw [h0'] at hconf ⊢
    rw [hnil]
    have : DeltaCluster.combinedConfidenceOf ([] ++ [d]) = d.confidence := by
      simp [DeltaCluster.combinedConfidenceOf, DeltaCluster.totalWeight,
        DeltaCluster.weightedConfidence, hsev, DeltaSeverity.weight]
    rw [this]
    exact hconf
  · have hWpos : (0:ℚ) < (DeltaCluster.totalWeight c.deltas : ℚ) := by
      exact_mod_cast hpos
    have hold : DeltaCluster.combinedConfidenceOf c.deltas
        = DeltaCluster.weightedConfidence c.deltas /
          (DeltaCluster.totalWeight c.deltas : ℚ) := by
      rw [DeltaCluster.combinedConfidenceOf, if_pos hpos]
    have hnew : DeltaCluster.combinedConfidenceOf (c.deltas ++ [d])
        = (DeltaCluster.weightedConfidence c.deltas + d.confidence * 4) /
          ((DeltaCluster.totalWeight c.deltas : ℚ) + 4) := by
      rw [DeltaCluster.combinedConfidenceOf, if_pos (by omega : 0 <
        DeltaCluster.totalWeight (c.deltas ++ [d]))]
      rw [weightedConfidence_append, hW4, hsev]
      norm_num [DeltaSeverity.weight]
    rw [hold, hnew]
    rw [hold] at hconf
    rw [div_le_div_iff₀ hWpos (by linarith)]
    have hS : DeltaCluster.weightedConfidence c.deltas
        ≤ d.confidence * (DeltaCluster.totalWeight c.deltas : ℚ) :=
      (div_le_iff₀ hWpos).mp hconf
    nlinarith [hS]

/-- Witness for the amended C5 at a concrete input: adding a CRITICAL member
with confidence 1 to a single-member LOW cluster of confidence 0.9. -/
theorem c5_witness :
    (DeltaCluster.add_delta { cluster_id := "c", entity := "e" }
      { delta_id := "d1"
        delta_type := .topicAbsence
        entity := "e"
        detected_at := 0
        window_start := 0
        window_end := 0
        severity := .low
        confidence := 9/10
        payload := .topicAbsencePayload "t" "t" 1 0 1 (1/2) false
        }).combined_confidence
    ≤ (DeltaCluster.add_delta
        (DeltaCluster.add_delta { cluster_id := "c", entity := "e" }
          { delta_id := "d1"
            delta_type := .topicAbsence
            entity := "e"
            detected_at := 0
            window_start := 0
            window_end := 0
            severity := .low
            confidence := 9/10
            payload := .topicAbsencePayload "t" "t" 1 0 1 (1/2) false })
        { delta_id := "d2"
          delta_type := .voiceSilence
          entity := "e"
          detected_at := 0
          window_start := 0
          window_end := 0
          severity := .critical
          confidence := 1
          payload := .voiceSilencePayload "a" "a" "regular" 0 0 0 none 0
            false 0 }).combined_confidence :=
  c5_amended_critical_monotone _ _ rfl
    (by norm_num [DeltaCluster.add_delta,
      DeltaCluster._recalculate_significance,
      DeltaCluster.combinedConfidenceOf, DeltaCluster.totalWeight,
      DeltaCluster.weightedConfidence, DeltaCluster.maxSeverityOf,
      DeltaSeverity.weight])
    (by norm_num [DeltaCluster.add_delta,
      DeltaCluster._recalculate_significance,
      DeltaCluster.combinedConfidenceOf, DeltaCluster.totalWeight,
      DeltaCluster.weightedConfidence, DeltaCluster.maxSeverityOf,
      DeltaSeverity.weight])

/-- Counterexample to claim C8 as stated: at `t = end_time` the trigger is
still reported active, so the window is closed at the right end, not
half-open. -/
theorem c8_counterexample :
    ContextTrigger.is_active
      { trigger_id := "t"
        trigger_type := .custom
        entity := "e"
        name := "n"
        start_time := some 0
        end_time := some 3600 } 3600 = true ∧
    ¬ ((3600 : DateTime) < 3600) := by
  constructor
  · norm_num [ContextTrigger.is_active]
  · norm_num

/-- Claim C8 (amended): `is_active(t)` is a pure interval check for the
closed interval: it is true exactly when `t` is at or after any set
`start_time` and at or before any set `end_time`; a missing bound leaves
that side unbounded. The unamended half-open version is false at
`t = end_time` (see the counterexample). -/
theorem c8_amended_is_active_closed_interval (trig : ContextTrigger)
    (t : DateTime) :
    trig.is_active t = true ↔
      ((∀ s, trig.start_time = some s → s ≤ t) ∧
       (∀ e, trig.end_time = some e → t ≤ e)) := by
  cases hs : trig.start_time with
  | none =>
      cases he : trig.end_time with
      | none => simp [ContextTrigger.is_active, hs, he]
      | some e => simp [ContextTrigger.is_active, hs, he, not_lt]
  | some s =>
      cases he : trig.end_time with
      | none => simp [ContextTrigger.is_active, hs, he, not_lt]
      | some e => simp [ContextTrigger.is_active, hs, he, not_lt]

/-- Characterization of `detect_coordinated_silence`: it emits exactly when
the rolling history holds at least 2 voice-silence deltas for the entity, at
least one of them has a `last_post_time`, and the spread of the recorded
`last_post_time` values is strictly below 6 hours; the emitted delta has
`coordination_score = 1 - spread/6` and `confidence = score * 0.8`. -/
theorem coordinatedSilence_spec (st : DeltaDetectorState)
    (snapshot : DiscourseSnapshot) (exp : DiscourseExpectation)
    (tnow : DateTime) (u : ℕ → String) (k : ℕ) :
    ((DeltaDetector.detect_coordinated_silence st snapshot exp tnow u k).isSome
      ↔ (2 ≤ (st.recent_deltas.filter (fun d =>
              (d.delta_type == DeltaType.voiceSilence) &&
                (d.entity == snapshot.entity) &&
                DeltaDetector.isVoiceSilencePayload d.payload)).length ∧
          ((st.recent_deltas.filter (fun d =>
              (d.delta_type == DeltaType.voiceSilence) &&
                (d.entity == snapshot.entity) &&
                DeltaDetector.isVoiceSilencePayload d.payload)).filterMap
            (fun d => DeltaDetector.voiceSilenceLastPost d.payload)) ≠ [] ∧
          (listMax ((st.recent_deltas.filter (fun d =>
              (d.delta_type == DeltaType.voiceSilence) &&
                (d.entity == snapshot.entity) &&
                DeltaDetector.isVoiceSilencePayload d.payload)).filterMap
            (fun d => DeltaDetector.voiceSilenceLastPost d.payload)) -
           listMin ((st.recent_deltas.filter (fun d =>
              (d.delta_type == DeltaType.voiceSilence) &&
                (d.entity == snapshot.entity) &&
                DeltaDetector.isVoiceSilencePayload d.payload)).filterMap
            (fun d => DeltaDetector.voiceSilenceLastPost d.payload))) / 3600
            < 6)) ∧
    (∀ d, DeltaDetector.detect_coordinated_silence st snapshot exp tnow u k
        = some d →
      d.payload.coordinationScore
        = some (1 - (listMax ((st.recent_deltas.filter (fun d =>
              (d.delta_type == DeltaType.voiceSilence) &&
                (d.entity == snapshot.entity) &&
                DeltaDetector.isVoiceSilencePayload d.payload)).filterMap
            (fun d => DeltaDetector.voiceSilenceLastPost d.payload)) -
           listMin ((st.recent_deltas.filter (fun d =>
              (d.delta_type == DeltaType.voiceSilence) &&
                (d.entity == snapshot.entity) &&
                DeltaDetector.isVoiceSilencePayload d.payload)).filterMap
            (fun d => DeltaDetector.voiceSilenceLastPost d.payload))) / 3600
            / 6) ∧
      d.confidence
        = (1 - (listMax ((st.recent_deltas.filter (fun d =>
              (d.delta_type == DeltaType.voiceSilence) &&
                (d.entity == snapshot.entity) &&
                DeltaDetector.isVoiceSilencePayload d.payload)).filterMap
            (fun d => DeltaDetector.voiceSilenceLastPost d.payload)) -
           listMin ((st.recent_deltas.filter (fun d =>
              (d.delta_type == DeltaType.voiceSilence) &&
                (d.entity == snapshot.entity) &&
                DeltaDetector.isVoiceSilencePayload d.payload)).filterMap
            (fun d => DeltaDetector.voiceSilenceLastPost d.payload))) / 3600
            / 6) * (4/5)) := by
  simp only [DeltaDetector.detect_coordinated_silence]
  split_ifs with h2 hemp hsp
  · simp only [Option.isSome_none, Bool.false_eq_true, false_iff]
    constructor
    · push_neg
      intro hge
      exact absurd hge (by omega)
    · intro d hd
      exact absurd hd (by simp)
  · simp only [Option.isSome_none, Bool.false_eq_true, false_iff]
    constructor
    · push_neg
      intro _ hne
      exact absurd hne (by simpa using hemp)
    · intro d hd
      exact absurd hd (by simp)
  · constructor
    · simp only [Option.isSome_some, true_iff]
      exact ⟨by omega, by simpa using hemp, hsp⟩
    · intro d hd
      rw [Option.some.injEq] at hd
      subst hd
      constructor
      · rfl
      · rfl
  · simp only [Option.isSome_none, Bool.false_eq_true, false_iff]
    constructor
    · intro hcontra
      exact hsp hcontra.2.2
    · intro d hd
      exact absurd hd (by simp)

/-- Claim C6 (amended): `detect_coordinated_silence` emits exactly when the
rolling history holds at least 2 voice-silence deltas for the entity, at
least one of which has a `last_post_time`, and the spread of the recorded
`last_post_time` values is strictly below 6 hours; the emitted delta has
`coordination_score = 1 - spread/6` and `confidence = score * 0.8`. The
unamended claim (requiring at least 2 deltas to carry `last_post_time`
values within the spread) is false, see the counterexample. -/
theorem c6_amended_coordinated_silence (st : DeltaDetectorState)
    (snapshot : DiscourseSnapshot) (exp : DiscourseExpectation)
    (tnow : DateTime) (u : ℕ → String) (k : ℕ) :
    ((DeltaDetector.detect_coordinated_silence st snapshot exp tnow u k).isSome
      ↔ (2 ≤ (st.recent_deltas.filter (fun d =>
              (d.delta_type == DeltaType.voiceSilence) &&
                (d.entity == snapshot.entity) &&
                DeltaDetector.isVoiceSilencePayload d.payload)).length ∧
          ((st.recent_deltas.filter (fun d =>
              (d.delta_type == DeltaType.voiceSilence) &&
                (d.entity == snapshot.entity) &&
                DeltaDetector.isVoiceSilencePayload d.payload)).filterMap
            (fun d => DeltaDetector.voiceSilenceLastPost d.payload)) ≠ [] ∧
          (listMax ((st.recent_deltas.filter (fun d =>
              (d.delta_type == DeltaType.voiceSilence) &&
                (d.entity == snapshot.entity) &&
                DeltaDetector.isVoiceSilencePayload d.payload)).filterMap
            (fun d => DeltaDetector.voiceSilenceLastPost d.payload)) -
           listMin ((st.recent_deltas.filter (fun d =>
              (d.delta_type == DeltaType.voiceSilence) &&
                (d.entity == snapshot.entity) &&
                DeltaDetector.isVoiceSilencePayload d.payload)).filterMap
            (fun d => DeltaDetector.voiceSilenceLastPost d.payload))) / 3600
            < 6)) ∧
    (∀ d, DeltaDetector.detect_coordinated_silence st snapshot exp tnow u k
        = some d →
      d.payload.coordinationScore
        = some (1 - (listMax ((st.recent_deltas.filter (fun d =>
              (d.delta_type == DeltaType.voiceSilence) &&
                (d.entity == snapshot.entity) &&
                DeltaDetector.isVoiceSilencePayload d.payload)).filterMap
            (fun d => DeltaDetector.voiceSilenceLastPost d.payload)) -
           listMin ((st.recent_deltas.filter (fun d =>
              (d.delta_type == DeltaType.voiceSilence) &&
                (d.entity == snapshot.entity) &&
                DeltaDetector.isVoiceSilencePayload d.payload)).filterMap
            (fun d => DeltaDetector.voiceSilenceLastPost d.payload))) / 3600
            / 6) ∧
      d.confidence
        = (1 - (listMax ((st.recent_deltas.filter (fun d =>
              (d.delta_type == DeltaType.voiceSilence) &&
                (d.entity == snapshot.entity) &&
                DeltaDetector.isVoiceSilencePayload d.payload)).filterMap
            (fun d => DeltaDetector.voiceSilenceLastPost d.payload)) -
           listMin ((st.recent_deltas.filter (fun d =>
              (d.delta_type == DeltaType.voiceSilence) &&
                (d.entity == snapshot.entity) &&
                DeltaDetector.isVoiceSilencePayload d.payload)).filterMap
            (fun d => DeltaDetector.voiceSilenceLastPost d.payload))) / 3600
            / 6) * (4/5)) :=
  coordinatedSilence_spec st snapshot exp tnow u k

/-- Counterexample to claim C6 as stated: with two voice-silence deltas in
the rolling history of which only one carries a `last_post_time`, fewer
than 2 deltas have `last_post_time` values, yet `detect_coordinated_silence`
still emits a coordinated-silence delta (spread 0 over the single value). -/
theorem c6_counterexample :
    (DeltaDetector.detect_coordinated_silence
      { recent_deltas :=
          [{ delta_id := "v1"
             delta_type := .voiceSilence
             entity := "e"
             detected_at := 0
             window_start := 0
             window_end := 0
             payload := .voiceSilencePayload "a1" "u1" "regular" 0 0 0 none 0
               false 0 },
           { delta_id := "v2"
             delta_type := .voiceSilence
             entity := "e"
             detected_at := 0
             window_start := 0
             window_end := 0
             payload := .voiceSilencePayload "a2" "u2" "regular" 0 0 0
               (some 0) 0 false 0 }] }
      { entity := "e"
        window_start := 0
        window_end := 3600 }
      { expectation_id := "x"
        entity := "e"
        window_start := 0
        window_end := 3600
        baseline := { entity := "e", time_window := .hour } }
      0 (fun _ => "u") 0).isSome = true ∧
    (([{ delta_id := "v1"
         delta_type := .voiceSilence
         entity := "e"
         detected_at := 0
         window_start := 0
         window_end := 0
         payload := .voiceSilencePayload "a1" "u1" "regular" 0 0 0 none 0
           false 0 },
       { delta_id := "v2"
         delta_type := .voiceSilence
         entity := "e"
         detected_at := 0
         window_start := 0
         window_end := 0
         payload := .voiceSilencePayload "a2" "u2" "regular" 0 0 0 (some 0) 0
           false 0 }] : List Delta).filter (fun d =>
        (d.delta_type == DeltaType.voiceSilence) && (d.entity == "e") &&
          (DeltaDetector.voiceSilenceLastPost d.payload).isSome)).length
      = 1 := by
  constructor
  · rw [(coordinatedSilence_spec
      { recent_deltas :=
          [{ delta_id := "v1"
             delta_type := .voiceSilence
             entity := "e"
             detected_at := 0
             window_start := 0
             window_end := 0
             payload := .voiceSilencePayload "a1" "u1" "regular" 0 0 0 none 0
               false 0 },
           { delta_id := "v2"
             delta_type := .voiceSilence
             entity := "e"
             detected_at := 0
             window_start := 0
             window_end := 0
             payload := .voiceSilencePayload "a2" "u2" "regular" 0 0 0
               (some 0) 0 false 0 }] }
      { entity := "e"
        window_start := 0
        window_end := 3600 }
      { expectation_id := "x"
        entity := "e"
        window_start := 0
        window_end := 3600
        baseline := { entity := "e", time_window := .hour } }
      0 (fun _ => "u") 0).1]
    refine ⟨?_, ?_, ?_⟩
    · norm_num [DeltaDetector.isVoiceSilencePayload]
    · simp [List.filterMap_cons, DeltaDetector.isVoiceSilencePayload,
        DeltaDetector.voiceSilenceLastPost]
    · norm_num [DeltaDetector.isVoiceSilencePayload,
        DeltaDetector.voiceSilenceLastPost, listMin, listMax,
        List.filterMap_cons, List.filterMap_nil]
  · norm_num [DeltaDetector.voiceSilenceLastPost]

/-- Witness for the amended C6 at a concrete rolling history: the amended
conditions hold and the delta is emitted. -/
theorem c6_witness :
    (DeltaDetector.detect_coordinated_silence
      { recent_deltas :=
          [{ delta_id := "v1"
             delta_type := .voiceSilence
             entity := "e"
             detected_at := 0
             window_start := 0
             window_end := 0
             payload := .voiceSilencePayload "a1" "u1" "regular" 0 0 0
               (some 0) 0 false 0 },
           { delta_id := "v2"
             delta_type := .voiceSilence
             entity := "e"
             detected_at := 0
             window_start := 0
             window_end := 0
             payload := .voiceSilencePayload "a2" "u2" "regular" 0 0 0
               (some 3600) 0 false 0 }] }
      { entity := "e"
        window_start := 0
        window_end := 3600 }
      { expectation_id := "x"
        entity := "e"
        window_start := 0
        window_end := 3600
        baseline := { entity := "e", time_window := .hour } }
      0 (fun _ => "u") 0).isSome = true := by
  rw [(c6_amended_coordinated_silence
      { recent_deltas :=
          [{ delta_id := "v1"
             delta_type := .voiceSilence
             entity := "e"
             detected_at := 0
             window_start := 0
             window_end := 0
             payload := .voiceSilencePayload "a1" "u1" "regular" 0 0 0
               (some 0) 0 false 0 },
           { delta_id := "v2"
             delta_type := .voiceSilence
             entity := "e"
             detected_at := 0
             window_start := 0
             window_end := 0
             payload := .voiceSilencePayload "a2" "u2" "regular" 0 0 0
               (some 3600) 0 false 0 }] }
      { entity := "e"
        window_start := 0
        window_end := 3600 }
      { expectation_id := "x"
        entity := "e"
        window_start := 0
        window_end := 3600
        baseline := { entity := "e", time_window := .hour } }
      0 (fun _ => "u") 0).1]
  refine ⟨?_, ?_, ?_⟩
  · norm_num [DeltaDetector.isVoiceSilencePayload]
  · simp [List.filterMap_cons, DeltaDetector.isVoiceSilencePayload,
      DeltaDetector.voiceSilenceLastPost]
  · norm_num [DeltaDetector.isVoiceSilencePayload,
      DeltaDetector.voiceSilenceLastPost, listMin, listMax,
      List.filterMap_cons, List.filterMap_nil]

/-- Sorting a singleton key leaves it unchanged. -/
theorem sortedDistinctTypes_singleton (t : DeltaType) :
    sortedDistinctTypes [t] = [t] := by
  simp [sortedDistinctTypes]

/-- Any row returned by `mappingFor` has a head probability in (0, 1]. -/
theorem mappingFor_head_bounds (ts : List DeltaType)
    (m : List (EventType × ℚ)) (hm : mappingFor ts = some m) :
    0 < (m.headD (EventType.anomalyDetected, 3/10)).2 ∧
      (m.headD (EventType.anomalyDetected, 3/10)).2 ≤ 1 := by
  rw [mappingFor] at hm
  have hmem : ∃ p ∈ DELTA_EVENT_MAPPINGS, p.2 = m := by
    cases h1 : DELTA_EVENT_MAPPINGS.find? (fun p => p.1 == ts) with
    | some p =>
        rw [h1] at hm
        exact ⟨p, List.mem_of_find?_eq_some h1, by simpa using hm⟩
    | none =>
        rw [h1] at hm
        simp only [Option.map_eq_some'] at hm
        obtain ⟨p, hp, hpm⟩ := hm
        exact ⟨p, List.mem_of_find?_eq_some hp, hpm⟩
  obtain ⟨p, hp, hpm⟩ := hmem
  subst hpm
  fin_cases hp <;> norm_num

/-- The average member confidence lies in [0, 1] when every member
confidence does (it is 0 for the empty list). -/
theorem avgConfidence_bounds (ds : List Delta)
    (h : ∀ d ∈ ds, 0 ≤ d.confidence ∧ d.confidence ≤ 1) :
    0 ≤ (ds.map (fun d => d.confidence)).sum / (ds.length : ℚ) ∧
      (ds.map (fun d => d.confidence)).sum / (ds.length : ℚ) ≤ 1 := by
  have hsum0 : 0 ≤ (ds.map (fun d => d.confidence)).sum :=
    List.sum_nonneg (by
      intro x hx
      rw [List.mem_map] at hx
      obtain ⟨d, hd, rfl⟩ := hx
      exact (h d hd).1)
  cases ds with
  | nil => norm_num
  | cons d0 rest =>
      have hlen : (0:ℚ) < ((d0 :: rest).length : ℚ) := by
        simp only [List.length_cons]
        positivity
      constructor
      · exact div_nonneg hsum0 (le_of_lt hlen)
      · rw [div_le_one hlen]
        have hb : ∀ x ∈ (d0 :: rest).map (fun d => d.confidence), x ≤ (1:ℚ) := by
          intro x hx
          rw [List.mem_map] at hx
          obtain ⟨d, hd, rfl⟩ := hx
          exact (h d hd).2
        have hs := List.sum_le_card_nsmul _ (1:ℚ) hb
        simpa using hs


/-- Bounds of the primary classification confidence produced by
`classifyFromPattern` for members with confidences in [0, 1]. -/
theorem classifyFromPattern_conf_bounds (ts : List DeltaType)
    (ds : List Delta)
    (h : ∀ d ∈ ds, 0 ≤ d.confidence ∧ d.confidence ≤ 1) :
    0 ≤ (EventClassifier.classifyFromPattern ts ds).primary_confidence ∧
      (EventClassifier.classifyFromPattern ts ds).primary_confidence ≤ 1 := by
  rw [EventClassifier.classifyFromPattern]
  cases hm : mappingFor ts with
  | none => norm_num
  | some m =>
      obtain ⟨hb0, hb1⟩ := mappingFor_head_bounds ts m hm
      obtain ⟨ha0, ha1⟩ := avgConfidence_bounds ds h
      simp only
      constructor
      · refine le_min (by norm_num) ?_
        have : (0:ℚ) ≤ 1/2 + (ds.map (fun d => d.confidence)).sum /
            (ds.length : ℚ) * (1/2) := by linarith
        exact mul_nonneg (le_of_lt hb0) this
      · refine le_trans (min_le_left _ _) (by norm_num)

/-- `add_delta` always leaves the reinforcement score in [0, 1]. -/
theorem add_delta_reinforcement_bounds (c : DeltaCluster) (d : Delta) :
    0 ≤ (c.add_delta d).reinforcement_score ∧
      (c.add_delta d).reinforcement_score ≤ 1 := by
  simp only [DeltaCluster.add_delta, DeltaCluster._recalculate_significance]
  rw [if_neg (by simp)]
  constructor
  · exact le_min (by norm_num) (by positivity)
  · exact min_le_left _ _

/-- Reinforcement score of a cluster built by folding `add_delta`. -/
theorem foldl_add_delta_reinforcement (ds : List Delta)
    (init : DeltaCluster) (h : 0 ≤ init.reinforcement_score ∧
      init.reinforcement_score ≤ 1) :
    0 ≤ (ds.foldl DeltaCluster.add_delta init).reinforcement_score ∧
      (ds.foldl DeltaCluster.add_delta init).reinforcement_score ≤ 1 := by
  induction ds generalizing init with
  | nil => exact h
  | cons d rest ih =>
      rw [List.foldl_cons]
      exact ih _ (add_delta_reinforcement_bounds init d)

/-- Member deltas of a cluster built by folding `add_delta`. -/
theorem foldl_add_delta_deltas (ds : List Delta) (init : DeltaCluster) :
    (ds.foldl DeltaCluster.add_delta init).deltas = init.deltas ++ ds := by
  induction ds generalizing init with
  | nil => simp
  | cons d rest ih =>
      rw [List.foldl_cons, ih]
      have : (init.add_delta d).deltas = init.deltas ++ [d] := by
        simp only [DeltaCluster.add_delta,
          DeltaCluster._recalculate_significance]
        rw [if_neg (by simp)]
      rw [this]
      simp

/-- Member delta types of a cluster built by folding `add_delta`. -/
theorem foldl_add_delta_types (ds : List Delta) (init : DeltaCluster) :
    (ds.foldl DeltaCluster.add_delta init).delta_types
      = init.delta_types ++ ds.map (fun d => d.delta_type) := by
  induction ds generalizing init with
  | nil => simp
  | cons d rest ih =>
      rw [List.foldl_cons, ih]
      have : (init.add_delta d).delta_types
          = init.delta_types ++ [d.delta_type] := by
        simp only [DeltaCluster.add_delta,
          DeltaCluster._recalculate_significance]
        rw [if_neg (by simp)]
      rw [this]
      simp

/-- Claim C3: for every entity and delta list with member confidences in
[0, 1] (the documented invariant), `create_event` (modelled total: every
reachable branch is defined) returns an event with confidence in [0, 1];
when the distinct delta-type combination has neither an exact nor a subset
match in the table, the event type is `ANOMALY_DETECTED` with primary
classification confidence 0.3. -/
theorem c3_create_event_total_and_bounded (entity : String)
    (deltas : List Delta) (tnow : DateTime) (u : ℕ → String) (k : ℕ)
    (hconf : ∀ d ∈ deltas, 0 ≤ d.confidence ∧ d.confidence ≤ 1) :
    (0 ≤ (EventClassifier.create_event entity deltas none tnow u k).1.confidence ∧
      (EventClassifier.create_event entity deltas none tnow u k).1.confidence ≤ 1) ∧
    (mappingFor (sortedDistinctTypes (deltas.map (fun d => d.delta_type)))
        = none →
      (EventClassifier.create_event entity deltas none tnow u k).1.event_type
          = EventType.anomalyDetected ∧
      (EventClassifier.create_event entity deltas none tnow u
          k).1.classification.primary_confidence = 3/10) := by
  rcases deltas with _ | ⟨d, _ | ⟨d2, rest⟩⟩
  · simp only [EventClassifier.create_event, List.foldl_nil, EventClassifier.classify_cluster,
      DetectedEvent.from_cluster]
    have htypes : sortedDistinctTypes
        (DeltaCluster.delta_types { cluster_id := u k, entity := entity })
        = [] := by
      simp [sortedDistinctTypes]
    have hnone0 : mappingFor ([] : List DeltaType) = none := by decide
    constructor
    · rw [EventClassifier.classifyFromPattern, htypes, hnone0]
      norm_num
    · intro _
      rw [EventClassifier.classifyFromPattern, htypes, hnone0]
      exact ⟨rfl, rfl⟩
  · simp only [EventClassifier.create_event, EventClassifier.classify_delta, DetectedEvent.from_delta]
    refine ⟨classifyFromPattern_conf_bounds [d.delta_type] [d] hconf, ?_⟩
    intro hnone
    rw [List.map_singleton, sortedDistinctTypes_singleton] at hnone
    rw [EventClassifier.classifyFromPattern, hnone]
    exact ⟨rfl, rfl⟩
  · simp only [EventClassifier.create_event, EventClassifier.classify_cluster,
      DetectedEvent.from_cluster]
    have hdel : ((d :: d2 :: rest).foldl DeltaCluster.add_delta
        { cluster_id := u k, entity := entity }).deltas
        = d :: d2 :: rest := by
      rw [foldl_add_delta_deltas]
      rfl
    have hty : ((d :: d2 :: rest).foldl DeltaCluster.add_delta
        { cluster_id := u k, entity := entity }).delta_types
        = (d :: d2 :: rest).map (fun d => d.delta_type) := by
      rw [foldl_add_delta_types]
      rfl
    have hrb := foldl_add_delta_reinforcement (d :: d2 :: rest)
      { cluster_id := u k, entity := entity } (by norm_num)
    have hcb := classifyFromPattern_conf_bounds
      (sortedDistinctTypes (((d :: d2 :: rest).foldl DeltaCluster.add_delta
        { cluster_id := u k, entity := entity }).delta_types))
      ((d :: d2 :: rest).foldl DeltaCluster.add_delta
        { cluster_id := u k, entity := entity }).deltas
      (by
        rw [hdel]
        exact hconf)
    constructor
    · exact ⟨mul_nonneg hcb.1 hrb.1, mul_le_one₀ hcb.2 hrb.1 hrb.2⟩
    · intro hnone
      rw [hty] at hcb ⊢
      rw [EventClassifier.classifyFromPattern, hnone]
      exact ⟨rfl, rfl⟩

/-- Witness for C3 at a concrete input: the empty delta list for entity
"e"; the combination is unmapped and the event is the 0.3-confidence
anomaly fallback. -/
theorem c3_witness :
    (0 ≤ (EventClassifier.create_event "e" [] none 0 (fun _ => "u")
        0).1.confidence ∧
      (EventClassifier.create_event "e" [] none 0 (fun _ => "u")
        0).1.confidence ≤ 1) ∧
    (mappingFor (sortedDistinctTypes (([] : List Delta).map
        (fun d => d.delta_type))) = none →
      (EventClassifier.create_event "e" [] none 0 (fun _ => "u")
          0).1.event_type = EventType.anomalyDetected ∧
      (EventClassifier.create_event "e" [] none 0 (fun _ => "u")
          0).1.classification.primary_confidence = 3/10) :=
  c3_create_event_total_and_bounded "e" [] 0 (fun _ => "u") 0 (by simp)

/-- Reading a list of length `n` back by indices 0..n-1 returns the list. -/
theorem listGetDRange (l : List ℚ) (n : ℕ) (h : l.length = n) :
    (List.range n).map (fun i => l.getD i 0) = l := by
  apply List.ext_getElem
  · simp [h]
  · intro i h1 h2
    simp only [List.getElem_map, List.getElem_range]
    exact List.getD_eq_getElem l 0 h2

/-- The hourly pattern always has 24 slots. -/
theorem computeHourlyPattern_length (s : List DiscourseSnapshot) :
    (computeHourlyPattern s).length = 24 := by
  rw [computeHourlyPattern]
  split_ifs <;> simp

/-- The daily pattern always has 7 slots. -/
theorem computeDailyPattern_length (s : List DiscourseSnapshot) :
    (computeDailyPattern s).length = 7 := by
  rw [computeDailyPattern]
  split_ifs <;> simp

/-- A built baseline has a 24-slot hourly pattern. -/
theorem build_baseline_hourly_length (b : BaselineBuilder) (entity : String)
    (snaps : List DiscourseSnapshot) (tw : TimeWindow) (tnow : DateTime) :
    (b.build_baseline entity snaps tw tnow).hourly_volume_pattern.length
      = 24 := by
  rw [BaselineBuilder.build_baseline]
  split_ifs <;> simp [computeHourlyPattern_length]

/-- A built baseline has a 7-slot daily pattern. -/
theorem build_baseline_daily_length (b : BaselineBuilder) (entity : String)
    (snaps : List DiscourseSnapshot) (tw : TimeWindow) (tnow : DateTime) :
    (b.build_baseline entity snaps tw tnow).daily_volume_pattern.length
      = 7 := by
  rw [BaselineBuilder.build_baseline]
  split_ifs <;> simp [computeDailyPattern_length]

/-- Claim C2 (amended): for a nonempty update, every decayed scalar and
per-slot array field of `update_baseline` is the existing value at
`decay = 1` and the freshly built value at `decay = 0`; the topic and voice
lists do not satisfy this (see the counterexample), because the id-union
merge adopts new-only ids as-is, keeps decayed existing-only ids, and
rebuilds shared entries with the new name, summed sample size and default
confidence. -/
theorem c2_amended_update_baseline_decay (b : BaselineBuilder)
    (existing : BaselinePattern) (snaps : List DiscourseSnapshot)
    (tnow : DateTime) (hne : snaps ≠ [])
    (hh : existing.hourly_volume_pattern.length = 24)
    (hd : existing.daily_volume_pattern.length = 7) :
    ((b.update_baseline existing snaps 1 tnow).avg_posts_per_window
        = existing.avg_posts_per_window ∧
     (b.update_baseline existing snaps 1 tnow).post_stddev
        = existing.post_stddev ∧
     (b.update_baseline existing snaps 1 tnow).hourly_volume_pattern
        = existing.hourly_volume_pattern ∧
     (b.update_baseline existing snaps 1 tnow).daily_volume_pattern
        = existing.daily_volume_pattern ∧
     (b.update_baseline existing snaps 1 tnow).avg_sentiment
        = existing.avg_sentiment ∧
     (b.update_baseline existing snaps 1 tnow).sentiment_stddev
        = existing.sentiment_stddev) ∧
    ((b.update_baseline existing snaps 0 tnow).avg_posts_per_window
        = (b.build_baseline existing.entity snaps existing.time_window
            tnow).avg_posts_per_window ∧
     (b.update_baseline existing snaps 0 tnow).post_stddev
        = (b.build_baseline existing.entity snaps existing.time_window
            tnow).post_stddev ∧
     (b.update_baseline existing snaps 0 tnow).hourly_volume_pattern
        = (b.build_baseline existing.entity snaps existing.time_window
            tnow).hourly_volume_pattern ∧
     (b.update_baseline existing snaps 0 tnow).daily_volume_pattern
        = (b.build_baseline existing.entity snaps existing.time_window
            tnow).daily_volume_pattern ∧
     (b.update_baseline existing snaps 0 tnow).avg_sentiment
        = (b.build_baseline existing.entity snaps existing.time_window
            tnow).avg_sentiment ∧
     (b.update_baseline existing snaps 0 tnow).sentiment_stddev
        = (b.build_baseline existing.entity snaps existing.time_window
            tnow).sentiment_stddev) := by
  have hni : ¬ snaps.isEmpty := by
    cases snaps with
    | nil => exact absurd rfl hne
    | cons s rest => simp
  constructor
  · simp only [BaselineBuilder.update_baseline]
    rw [if_neg hni]
    refine ⟨by ring, by ring, ?_, ?_, by ring, by ring⟩
    · simp only [mul_one, sub_self, mul_zero, add_zero]
      exact listGetDRange _ 24 hh
    · simp only [mul_one, sub_self, mul_zero, add_zero]
      exact listGetDRange _ 7 hd
  · simp only [BaselineBuilder.update_baseline]
    rw [if_neg hni]
    refine ⟨by ring, by ring, ?_, ?_, by ring, by ring⟩
    · simp only [mul_zero, sub_zero, one_mul, mul_one, zero_add, zero_mul]
      exact listGetDRange _ 24 (build_baseline_hourly_length _ _ _ _ _)
    · simp only [mul_zero, sub_zero, one_mul, mul_one, zero_add, zero_mul]
      exact listGetDRange _ 7 (build_baseline_daily_length _ _ _ _ _)

set_option maxHeartbeats 1600000 in
/-- Counterexample to claim C2 as stated: with one new snapshot mentioning
topic "a", `update_baseline` with `decay = 1.0` changes the `typical_topics`
list (the new-only topic is adopted into the merge), and with `decay = 0.0`
the `typical_topics` list differs from the freshly built baseline (the stale
existing-only topic "b" is kept with a zeroed mention count). -/
theorem c2_counterexample :
    ((BaselineBuilder.update_baseline
        { min_samples := 1, sqrtFn := fun q => q }
        { entity := "e", time_window := .hour }
        [{ entity := "e"
           window_start := 0
           window_end := 3600
           total_posts := 5
           topic_counts := [("a", 1)] }] 1 0).typical_topics
      ≠ ({ entity := "e", time_window := .hour } :
          BaselinePattern).typical_topics) ∧
    ((BaselineBuilder.update_baseline
        { min_samples := 1, sqrtFn := fun q => q }
        { entity := "e"
          time_window := .hour
          typical_topics := [{ topic_id := "b"
                               topic_name := "b"
                               expected_mention_count := 5
                               mention_stddev := 0
                               expected_sentiment := 0
                               sentiment_stddev := 0 }] }
        [{ entity := "e"
           window_start := 0
           window_end := 3600
           total_posts := 5
           topic_counts := [("a", 1)] }] 0 0).typical_topics
      ≠ (BaselineBuilder.build_baseline
          { min_samples := 1, sqrtFn := fun q => q } "e"
          [{ entity := "e"
             window_start := 0
             window_end := 3600
             total_posts := 5
             topic_counts := [("a", 1)] }] .hour 0).typical_topics) := by
  constructor
  · simp [BaselineBuilder.update_baseline, BaselineBuilder.build_baseline,
      BaselineBuilder.mergeTopics, BaselineBuilder.computeTopicExpectations,
      firstDedup, firstDedupAux, lookupOpt, List.mergeSort, pyMean]
  · simp [BaselineBuilder.update_baseline, BaselineBuilder.build_baseline,
      BaselineBuilder.mergeTopics, BaselineBuilder.computeTopicExpectations,
      firstDedup, firstDedupAux, lookupOpt, List.mergeSort, pyMean]

/-- Witness for the amended C2 theorem: on a concrete one-snapshot update
with decay 1, the hourly volume pattern is unchanged from the existing
baseline's default. -/
theorem c2_witness :
    (BaselineBuilder.update_baseline
      { min_samples := 1, sqrtFn := fun q => q }
      { entity := "e", time_window := .hour }
      [{ entity := "e"
         window_start := 0
         window_end := 3600
         total_posts := 5
         topic_counts := [("a", 1)] }] 1 0).hourly_volume_pattern
      = List.replicate 24 0 := by
  have h := c2_amended_update_baseline_decay
    { min_samples := 1, sqrtFn := fun q => q }
    { entity := "e", time_window := .hour }
    [{ entity := "e"
       window_start := 0
       window_end := 3600
       total_posts := 5
       topic_counts := [("a", 1)] }] 0
    (by simp) (by simp) (by simp)
  exact h.1.2.2.1

/-- Erasing the id of a constructed topic-absence delta forgets which uuid
was drawn. -/
theorem eraseId_mkTopicAbsenceDelta (i e : String) (dt ws we : DateTime)
    (mid mnm : String) (em : ℚ) (om : ℕ) (bm ti : ℚ) (req : Bool) (c : ℚ) :
    eraseId (mkTopicAbsenceDelta i e dt ws we mid mnm em om bm ti req c)
      = mkTopicAbsenceDelta "" e dt ws we mid mnm em om bm ti req c := rfl

/-- Erasing the id of a constructed voice-silence delta forgets which uuid
was drawn. -/
theorem eraseId_mkVoiceSilenceDelta (i e : String) (dt ws we : DateTime)
    (sa sn at_ : String) (sh ep : ℚ) (op : ℕ) (lpt : Option DateTime)
    (tpf : ℚ) (kv : Bool) (inf c : ℚ) :
    eraseId (mkVoiceSilenceDelta i e dt ws we sa sn at_ sh ep op lpt tpf kv
        inf c)
      = mkVoiceSilenceDelta "" e dt ws we sa sn at_ sh ep op lpt tpf kv
          inf c := rfl

/-- Erasing the id of a constructed sentiment-decoupling delta forgets which
uuid was drawn. -/
theorem eraseId_mkSentimentDecouplingDelta (i e : String)
    (dt ws we : DateTime) (es os : ℚ) (ct : String) (z : ℚ) (sig : Bool)
    (ot et : List String) (c : ℚ) :
    eraseId (mkSentimentDecouplingDelta i e dt ws we es os ct z sig ot et c)
      = mkSentimentDecouplingDelta "" e dt ws we es os ct z sig ot et c := rfl

/-- Erasing the id of a constructed volume-anomaly delta forgets which uuid
was drawn. -/
theorem eraseId_mkVolumeAnomalyDelta (i e : String) (dt ws we : DateTime)
    (ev : ℚ) (ov : ℕ) (vr bv vs z : ℚ) (ic : Bool) (ua : ℕ) (ea c : ℚ) :
    eraseId (mkVolumeAnomalyDelta i e dt ws we ev ov vr bv vs z ic ua ea c)
      = mkVolumeAnomalyDelta "" e dt ws we ev ov vr bv vs z ic ua ea c := rfl

/-- Topic-absence scan: outputs with different uuid streams agree after
`eraseId`, and consume the same number of uuids. -/
theorem topicAbsence_analyzeGo_eraseId (a : TopicAbsenceAnalyzer)
    (snap : DiscourseSnapshot) (e : DiscourseExpectation) (tnow : DateTime)
    (u1 u2 : ℕ → String) :
    ∀ (ets : List ExpectedTopic) (k : ℕ),
      (a.analyzeGo snap e tnow u1 ets k).1.map eraseId
          = (a.analyzeGo snap e tnow u2 ets k).1.map eraseId
        ∧ (a.analyzeGo snap e tnow u1 ets k).2
          = (a.analyzeGo snap e tnow u2 ets k).2 := by
  intro ets
  induction ets with
  | nil => exact fun k => ⟨rfl, rfl⟩
  | cons et rest ih =>
      intro k
      simp only [TopicAbsenceAnalyzer.analyzeGo]
      split_ifs <;>
        first
          | exact ih k
          | exact ⟨by
              simp only [List.map_cons, eraseId_mkTopicAbsenceDelta,
                (ih (k + 1)).1], (ih (k + 1)).2⟩

/-- Voice-silence scan: outputs with different uuid streams agree after
`eraseId`, and consume the same number of uuids. -/
theorem voiceSilence_analyzeGo_eraseId (a : VoiceSilenceAnalyzer)
    (snap : DiscourseSnapshot) (tnow : DateTime)
    (ls : List (String × DateTime)) (ids : List String)
    (u1 u2 : ℕ → String) :
    ∀ (evs : List ExpectedVoice) (k : ℕ),
      (a.analyzeGo snap tnow ls ids u1 evs k).1.map eraseId
          = (a.analyzeGo snap tnow ls ids u2 evs k).1.map eraseId
        ∧ (a.analyzeGo snap tnow ls ids u1 evs k).2
          = (a.analyzeGo snap tnow ls ids u2 evs k).2 := by
  intro evs
  induction evs with
  | nil => exact fun k => ⟨rfl, rfl⟩
  | cons ev rest ih =>
      intro k
      simp only [VoiceSilenceAnalyzer.analyzeGo]
      split_ifs <;>
        first
          | exact ih k
          | exact ⟨by
              simp only [List.map_cons, eraseId_mkVoiceSilenceDelta,
                (ih (k + 1)).1], (ih (k + 1)).2⟩

/-- Per-topic sentiment scan: outputs with different uuid streams agree
after `eraseId`, and consume the same number of uuids. -/
theorem checkTopicSentimentsGo_eraseId (a : SentimentDecouplingAnalyzer)
    (snap : DiscourseSnapshot) (tnow : DateTime) (u1 u2 : ℕ → String) :
    ∀ (ets : List ExpectedTopic) (k : ℕ),
      (a.checkTopicSentimentsGo snap tnow u1 ets k).1.map eraseId
          = (a.checkTopicSentimentsGo snap tnow u2 ets k).1.map eraseId
        ∧ (a.checkTopicSentimentsGo snap tnow u1 ets k).2
          = (a.checkTopicSentimentsGo snap tnow u2 ets k).2 := by
  intro ets
  induction ets with
  | nil => exact fun k => ⟨rfl, rfl⟩
  | cons et rest ih =>
      intro k
      simp only [SentimentDecouplingAnalyzer.checkTopicSentimentsGo]
      cases lookupOpt snap.topic_sentiments et.topic_id with
      | none => exact ih k
      | some observed =>
          simp only []
          split_ifs <;>
            first
              | exact ih k
              | exact ⟨by
                  simp only [List.map_cons, eraseId_mkSentimentDecouplingDelta,
                    (ih (k + 1)).1], (ih (k + 1)).2⟩

/-- Volume-anomaly analysis: outputs with different uuid streams agree after
`eraseId`, and consume the same number of uuids. -/
theorem volumeAnomaly_analyze_eraseId (a : VolumeAnomalyAnalyzer)
    (snap : DiscourseSnapshot) (e : DiscourseExpectation) (tnow : DateTime)
    (u1 u2 : ℕ → String) (k : ℕ) :
    (a.analyze snap e tnow u1 k).1.map eraseId
        = (a.analyze snap e tnow u2 k).1.map eraseId
      ∧ (a.analyze snap e tnow u1 k).2 = (a.analyze snap e tnow u2 k).2 := by
  simp only [VolumeAnomalyAnalyzer.analyze,
    VolumeAnomalyAnalyzer.createVolumeDelta]
  split_ifs <;> exact ⟨rfl, rfl⟩

/-- Sentiment-decoupling analysis: outputs with different uuid streams agree
after `eraseId`, and consume the same number of uuids. -/
theorem sentimentDecoupling_analyze_eraseId (a : SentimentDecouplingAnalyzer)
    (snap : DiscourseSnapshot) (e : DiscourseExpectation) (tnow : DateTime)
    (u1 u2 : ℕ → String) (k : ℕ) :
    (a.analyze snap e tnow u1 k).1.map eraseId
        = (a.analyze snap e tnow u2 k).1.map eraseId
      ∧ (a.analyze snap e tnow u1 k).2 = (a.analyze snap e tnow u2 k).2 := by
  simp only [SentimentDecouplingAnalyzer.analyze,
    SentimentDecouplingAnalyzer.checkOverallSentiment]
  split_ifs
  · exact checkTopicSentimentsGo_eraseId a snap tnow u1 u2 e.expected_topics k
  · dsimp only
    refine ⟨?_, (checkTopicSentimentsGo_eraseId a snap tnow u1 u2
      e.expected_topics (k + 1)).2⟩
    simp only [List.map_cons, eraseId_mkSentimentDecouplingDelta,
      (checkTopicSentimentsGo_eraseId a snap tnow u1 u2
        e.expected_topics (k + 1)).1]
  · exact checkTopicSentimentsGo_eraseId a snap tnow u1 u2 e.expected_topics k

/-- The confidence filter and severity assignment of `detectWith` preserve
agreement-up-to-`eraseId` of delta lists. -/
theorem postprocess_eraseId (q : ℚ) :
    ∀ l1 l2 : List Delta, l1.map eraseId = l2.map eraseId →
      ((l1.filter (fun d => d.confidence ≥ q)).map
          (fun d => { d with
            severity := DeltaDetector.calculateSeverity d })).map eraseId
        = ((l2.filter (fun d => d.confidence ≥ q)).map
          (fun d => { d with
            severity := DeltaDetector.calculateSeverity d })).map eraseId := by
  intro l1
  induction l1 with
  | nil =>
      intro l2 h
      rw [List.map_nil] at h
      rw [List.map_eq_nil_iff.mp h.symm]
  | cons d1 t1 ih =>
      intro l2 h
      cases l2 with
      | nil => simp at h
      | cons d2 t2 =>
          simp only [List.map_cons, List.cons.injEq] at h
          obtain ⟨hd, ht⟩ := h
          have hconf : d1.confidence = d2.confidence := by
            have h7 : (eraseId d1).confidence = (eraseId d2).confidence := by
              rw [hd]
            exact h7
          have hsev : DeltaDetector.calculateSeverity d1
              = DeltaDetector.calculateSeverity d2 := by
            have h5 : DeltaDetector.calculateSeverity (eraseId d1)
                = DeltaDetector.calculateSeverity (eraseId d2) := by rw [hd]
            exact h5
          simp only [List.filter_cons, hconf]
          split_ifs with hq
          · simp only [List.map_cons]
            refine congrArg₂ _ ?_ (ih t2 ht)
            have h6 : ({ eraseId d1 with
                  severity := DeltaDetector.calculateSeverity d1 } : Delta)
                = { eraseId d2 with
                    severity := DeltaDetector.calculateSeverity d2 } := by
              rw [hd, hsev]
            exact h6
          · exact ih t2 ht

/-- Core detection run: the emitted deltas with different uuid streams agree
after `eraseId`. -/
theorem detectWith_eraseId (cfg : DetectionConfig) (st : DeltaDetectorState)
    (snap : DiscourseSnapshot) (e : DiscourseExpectation) (tnow : DateTime)
    (u1 u2 : ℕ → String) (k : ℕ) :
    (DeltaDetector.detectWith cfg st snap e tnow u1 k).1.map eraseId
      = (DeltaDetector.detectWith cfg st snap e tnow u2 k).1.map eraseId := by
  simp only [DeltaDetector.detectWith, TopicAbsenceAnalyzer.analyze,
    VoiceSilenceAnalyzer.analyze]
  have h1 := topicAbsence_analyzeGo_eraseId
    { threshold := cfg.topic_absence_threshold } snap e tnow u1 u2
    e.expected_topics k
  rw [← h1.2]
  have h2 := voiceSilence_analyzeGo_eraseId
    { threshold_hours := cfg.voice_silence_threshold_hours } snap tnow
    (VoiceSilenceAnalyzer.updateLastSeen st.last_seen snap.active_accounts
      snap.window_end)
    (snap.active_accounts.map (fun acc => acc.account_id)) u1 u2
    e.expected_voices
    ((TopicAbsenceAnalyzer.analyzeGo { threshold := cfg.topic_absence_threshold }
      snap e tnow u1 e.expected_topics k).2)
  rw [← h2.2]
  have h3 := sentimentDecoupling_analyze_eraseId
    { z_threshold := cfg.sentiment_deviation_threshold } snap e tnow u1 u2
    ((VoiceSilenceAnalyzer.analyzeGo
      { threshold_hours := cfg.voice_silence_threshold_hours } snap tnow
      (VoiceSilenceAnalyzer.updateLastSeen st.last_seen snap.active_accounts
        snap.window_end)
      (snap.active_accounts.map (fun acc => acc.account_id)) u1
      e.expected_voices
      ((TopicAbsenceAnalyzer.analyzeGo
        { threshold := cfg.topic_absence_threshold } snap e tnow u1
        e.expected_topics k).2)).2)
  rw [← h3.2]
  have h4 := volumeAnomaly_analyze_eraseId
    { collapse_threshold := cfg.volume_collapse_threshold } snap e tnow u1 u2
    ((SentimentDecouplingAnalyzer.analyze
      { z_threshold := cfg.sentiment_deviation_threshold } snap e tnow u1
      ((VoiceSilenceAnalyzer.analyzeGo
        { threshold_hours := cfg.voice_silence_threshold_hours } snap tnow
        (VoiceSilenceAnalyzer.updateLastSeen st.last_seen snap.active_accounts
          snap.window_end)
        (snap.active_accounts.map (fun acc => acc.account_id)) u1
        e.expected_voices
        ((TopicAbsenceAnalyzer.analyzeGo
          { threshold := cfg.topic_absence_threshold } snap e tnow u1
          e.expected_topics k).2)).2)).2)
  exact postprocess_eraseId cfg.min_delta_confidence _ _
    (by simp only [List.map_append, h1.1, h2.1, h3.1, h4.1])

/-- Claim C9 (amended): the detection pipeline is deterministic only up to
the uuid4-derived `delta_id` fields; for any two uuid streams, two runs of
`DeltaDetector.detect` on identical inputs, the same fixed now and identical
initial state return the same success/failure verdict and delta lists that
agree on every field except `delta_id`. -/
theorem c9_amended_detect_deterministic_up_to_ids (cfg : DetectionConfig)
    (st : DeltaDetectorState) (snap : DiscourseSnapshot)
    (expOpt : Option DiscourseExpectation) (tnow : DateTime)
    (u1 u2 : ℕ → String) (k : ℕ) :
    (DeltaDetector.detect cfg st snap expOpt tnow u1 k).map
        (fun r => r.1.map eraseId)
      = (DeltaDetector.detect cfg st snap expOpt tnow u2 k).map
        (fun r => r.1.map eraseId) := by
  cases expOpt with
  | some e =>
      simp only [DeltaDetector.detect, Except.map]
      exact congrArg Except.ok (detectWith_eraseId cfg st snap e tnow u1 u2 k)
  | none =>
      simp only [DeltaDetector.detect]
      cases hg : generate_expectation { baselines := st.gen_baselines } st.tm
        snap.entity snap.window_start snap.window_end tnow with
      | error msg => rfl
      | ok p =>
          obtain ⟨ex, tm2⟩ := p
          simp only [Except.map]
          exact congrArg Except.ok
            (detectWith_eraseId cfg { st with tm := tm2 } snap ex tnow u1 u2 k)

set_option maxHeartbeats 1600000 in
/-- Counterexample to claim C9 as stated: on identical inputs, identical
initial state and the same fixed now, two runs of `DeltaDetector.detect`
drawing different uuids return different outputs, because the emitted
topic-absence delta carries the freshly drawn `delta_id`. -/
theorem c9_counterexample :
    DeltaDetector.detect {} {}
      { entity := "e", window_start := 0, window_end := 3600 }
      (some { expectation_id := "x"
              entity := "e"
              window_start := 0
              window_end := 3600
              baseline := { entity := "e", time_window := .hour }
              expected_topics := [{ topic_id := "a"
                                    topic_name := "a"
                                    expected_mention_count := 10
                                    mention_stddev := 0
                                    expected_sentiment := 0
                                    sentiment_stddev := 0 }] })
      0 (fun _ => "run1") 0
    ≠ DeltaDetector.detect {} {}
      { entity := "e", window_start := 0, window_end := 3600 }
      (some { expectation_id := "x"
              entity := "e"
              window_start := 0
              window_end := 3600
              baseline := { entity := "e", time_window := .hour }
              expected_topics := [{ topic_id := "a"
                                    topic_name := "a"
                                    expected_mention_count := 10
                                    mention_stddev := 0
                                    expected_sentiment := 0
                                    sentiment_stddev := 0 }] })
      0 (fun _ => "run2") 0 := by
  intro h
  have h2 := congrArg
    (fun r => r.map (fun t => t.1.map (fun d => d.delta_id))) h
  norm_num [DeltaDetector.detect, DeltaDetector.detectWith,
    TopicAbsenceAnalyzer.analyze, TopicAbsenceAnalyzer.analyzeGo,
    VoiceSilenceAnalyzer.analyze, VoiceSilenceAnalyzer.analyzeGo,
    VoiceSilenceAnalyzer.updateLastSeen,
    SentimentDecouplingAnalyzer.analyze,
    SentimentDecouplingAnalyzer.checkOverallSentiment,
    SentimentDecouplingAnalyzer.checkTopicSentimentsGo,
    VolumeAnomalyAnalyzer.analyze, DiscourseExpectation.is_topic_required,
    mkTopicAbsenceDelta, lookupD, lookupOpt, Except.map] at h2
  exact absurd h2 (by decide)

/-- Claim C7 (code bug): for every entity with no cached baseline,
`generate_expectation` does not return the maximally-uncertain expectation
the spec promises: the `DiscourseExpectation()` call inside
`_empty_expectation` runs the `baseline` default factory
`lambda: BaselinePattern(entity="")`, and `BaselinePattern.time_window` has
no default, so the call raises `TypeError` instead. -/
theorem c7_missing_baseline_raises (gs : ExpectationGeneratorState)
    (tm : TriggerManagerState) (entity : String)
    (ws we tnow : DateTime) (habs : lookupOpt gs.baselines entity = none) :
    generate_expectation gs tm entity ws we tnow
      = Except.error
          "TypeError: BaselinePattern missing 1 required positional argument: time_window" := by
  simp only [generate_expectation, habs, emptyExpectation,
    baselineDefaultFactory]

/-- Witness for the C7 theorem: a concrete generator state with an empty
baseline cache raises on `generate_expectation`. -/
theorem c7_witness :
    lookupOpt ({} : ExpectationGeneratorState).baselines "e" = none ∧
    generate_expectation {} {} "e" 0 3600 0
      = Except.error
          "TypeError: BaselinePattern missing 1 required positional argument: time_window" :=
  ⟨rfl, c7_missing_baseline_raises {} {} "e" 0 3600 0 rfl⟩

/-- Adding trigger topics never touches the expectation's confidence. -/
theorem addNewTopics_confidence :
    ∀ (ts : List String) (e : DiscourseExpectation),
      (DiscourseExpectation.addNewTopics e ts).confidence = e.confidence := by
  intro ts
  induction ts with
  | nil => exact fun e => rfl
  | cons t rest ih =>
      intro e
      simp only [DiscourseExpectation.addNewTopics]
      split_ifs <;> exact ih _

/-- Applying a list of context triggers never touches the expectation's
confidence. -/
theorem foldl_apply_trigger_confidence (l : List ContextTrigger) :
    ∀ e : DiscourseExpectation,
      (l.foldl (fun e t => e.apply_trigger t) e).confidence
        = e.confidence := by
  induction l with
  | nil => exact fun e => rfl
  | cons trig rest ih =>
      intro e
      rw [List.foldl_cons, ih]
      simp only [DiscourseExpectation.apply_trigger]
      rw [addNewTopics_confidence]

/-- Companion to the C7 theorem: with a cached baseline,
`generate_expectation` succeeds and the returned confidence is
`min(0.9, sample_size / 100)` (triggers never change it). -/
theorem cached_baseline_confidence (gs : ExpectationGeneratorState)
    (tm : TriggerManagerState) (entity : String) (ws we tnow : DateTime)
    (baseline : BaselinePattern)
    (hb : lookupOpt gs.baselines entity = some baseline) :
    (generate_expectation gs tm entity ws we tnow).map
        (fun r => r.1.confidence)
      = Except.ok (min (9/10) ((baseline.sample_size : ℚ) / 100)) := by
  simp only [generate_expectation, hb, Except.map]
  rw [foldl_apply_trigger_confidence]
  rfl
